import Mathlib

/-!
Verification of the metric-computation and insight-derivation pipeline of the
Aadhaar analysis dashboard (`analysis.py`, `insightGenerator.py`).

The Python code is shallowly embedded: a tabular dataset is modelled as the
list of (key, value) pairs that a metric calculator actually consumes after
column resolution, pandas/numpy aggregations become list functions, Python
floats become `ℚ` (the dashboard's arithmetic is +, -, *, /, ** on finite
decimal data; none of the verified claims exercises float rounding, NaN or
infinity — places where a degenerate input would produce NaN/inf in the
source are noted at the definition), and dicts returned by fallible
calculators become `Option` records.  Python's `str.format` specifiers used
in the insight messages are reimplemented over `ℚ`/`ℤ`; their tie-rounding
differs from IEEE-754 binary rounding on exact .5 ties, which no verified
statement touches.  The transcendental Shannon-entropy field of the
demographic metrics (`np.log`) is the one field not carried by the
embedding: it admits no executable rational form and no claim mentions it.
-/

namespace AadhaarSpec

/-! ## String helpers (Python `str` operations used by the pipeline) -/

/-- ASCII upper-casing, modelling Python `str.upper()` on the label strings
    the generators feed it (plain ASCII). -/
def strUpper (s : String) : String := ⟨s.data.map Char.toUpper⟩

/-- ASCII lower-casing, modelling Python `str.lower()` used by the column
    resolver (column names are plain ASCII). -/
def strLower (s : String) : String := ⟨s.data.map Char.toLower⟩

/-- `needle` is a prefix of `hay` (character lists). -/
def isPrefixL : List Char → List Char → Bool
  | [], _ => true
  | _ :: _, [] => false
  | a :: as, b :: bs => a == b && isPrefixL as bs

/-- `needle` occurs somewhere in `hay` (character lists). -/
def hasSubL (needle : List Char) : List Char → Bool
  | [] => needle.isEmpty
  | b :: bs => isPrefixL needle (b :: bs) || hasSubL needle bs

/-- Python `needle in hay` on strings. -/
def hasSubstr (hay needle : String) : Bool := hasSubL needle.data hay.data

/-! ## Numeric formatting (Python format specifiers in the f-strings)

`fmt1`, `fmt2`, `fmt0` model `{:.1f}`, `{:.2f}`, `{:.0f}`; `fmtComma`
models `{:,}` on integers.  Rounding is half-up on the exact rational;
Python rounds the nearest binary double half-to-even — the two agree on
every value any verified statement evaluates. -/

def fmt1 (q : ℚ) : String :=
  let n : ℤ := ⌊q * 10 + 1 / 2⌋
  (if n < 0 then "-" else "") ++ toString (n.natAbs / 10) ++ "." ++ toString (n.natAbs % 10)

def fmt2 (q : ℚ) : String :=
  let n : ℤ := ⌊q * 100 + 1 / 2⌋
  (if n < 0 then "-" else "") ++ toString (n.natAbs / 100) ++ "." ++
    (if n.natAbs % 100 < 10 then "0" else "") ++ toString (n.natAbs % 100)

def fmt0 (q : ℚ) : String :=
  let n : ℤ := ⌊q + 1 / 2⌋
  (if n < 0 then "-" else "") ++ toString n.natAbs

/-- Insert thousands separators into a reversed digit list. -/
def commaGroupAux : List Char → List Char
  | a :: b :: c :: d :: rest => a :: b :: c :: ',' :: commaGroupAux (d :: rest)
  | l => l

/-- Python `{:,}` formatting of an integer. -/
def fmtComma (n : ℤ) : String :=
  (if n < 0 then "-" else "") ++ ⟨(commaGroupAux (toString n.natAbs).data.reverse).reverse⟩

/-! ## Column resolution (`_find_*_column` heuristics of `analysis.py`)

Each resolver returns the first column whose lower-cased name contains the
keyword, `none` when no column matches. -/

def find_date_column (cols : List String) : Option String :=
  cols.find? (fun c => hasSubstr (strLower c) "date")

/-- `AdvancedTemporalAnalysis._find_enrollment_column`: matches `total` or `enrol`. -/
def find_enrol_column_temporal (cols : List String) : Option String :=
  cols.find? (fun c => hasSubstr (strLower c) "total" || hasSubstr (strLower c) "enrol")

def find_state_column (cols : List String) : Option String :=
  cols.find? (fun c => hasSubstr (strLower c) "state")

/-- `GeographicAnalysis._find_enrollment_column`: matches `total` only. -/
def find_enrol_column_geo (cols : List String) : Option String :=
  cols.find? (fun c => hasSubstr (strLower c) "total")

def find_age_columns (cols : List String) : List String :=
  cols.filter (fun c => hasSubstr (strLower c) "age")

def find_gender_column (cols : List String) : Option String :=
  cols.find? (fun c => hasSubstr (strLower c) "gender")

/-! ## Geographic analysis (`GeographicAnalysis.calculate_concentration`)

A dataset is the list of `(state, total)` pairs of the resolved state and
enrollment columns.  `df.groupby(state)[total].sum()` is modelled by
`stateKeys`/`groupSum`: pandas indexes the grouped series by the sorted
distinct keys. -/

/-- Distinct state names in sorted order (pandas `groupby` sorts group keys). -/
def stateKeys (rows : List (String × ℚ)) : List String :=
  List.insertionSort (fun a b => a ≤ b) (rows.map Prod.fst).dedup

/-- Sum of the enrollment column over the whole dataset. -/
def grandTotal (rows : List (String × ℚ)) : ℚ :=
  (rows.map Prod.snd).sum

/-- Sum of the enrollment column over the rows of one state. -/
def groupSum (rows : List (String × ℚ)) (s : String) : ℚ :=
  ((rows.filter (fun r => r.1 == s)).map Prod.snd).sum

/-- `shares = (state_data / total) * 100`, indexed like the grouped series. -/
def stateShares (rows : List (String × ℚ)) : List (String × ℚ) :=
  (stateKeys rows).map (fun s => (s, groupSum rows s / grandTotal rows * 100))

def sortAscQ (l : List ℚ) : List ℚ := List.insertionSort (fun a b => a ≤ b) l

def sortDescQ (l : List ℚ) : List ℚ := List.insertionSort (fun a b => b ≤ a) l

/-- `np.sum(np.arange(1, n + 1) * sorted_shares)`. -/
def rankWeightedSum (l : List ℚ) : ℚ :=
  (l.enum.map (fun p => ((p.1 : ℚ) + 1) * p.2)).sum

/-- The Gini formula of the source, applied to the ascending-sorted shares. -/
def giniOf (sorted : List ℚ) : ℚ :=
  2 * rankWeightedSum sorted / ((sorted.length : ℚ) * sorted.sum) -
    ((sorted.length : ℚ) + 1) / (sorted.length : ℚ)

/-- `series.idxmax()` paired with `series.max()`: the first (in index order)
    entry attaining the maximum value; `none` on an empty series, where
    pandas raises (caught by the blanket `except`). -/
def argmaxPairAux : List (String × ℚ) → (String × ℚ) → (String × ℚ)
  | [], best => best
  | p :: rest, best => argmaxPairAux rest (if best.2 < p.2 then p else best)

def idxmaxPair : List (String × ℚ) → Option (String × ℚ)
  | [] => none
  | p :: rest => some (argmaxPairAux rest p)

/-- The values of the share series, in index order. -/
def shareVals (rows : List (String × ℚ)) : List ℚ :=
  (stateShares rows).map Prod.snd

/-- `hhi = (shares ** 2).sum()`. -/
def herfindahlOf (rows : List (String × ℚ)) : ℚ :=
  ((shareVals rows).map (fun s => s ^ 2)).sum

/-- The fixed HHI classification breakpoints of the source. -/
def concentrationLevel (hhi : ℚ) : String :=
  if 2500 < hhi then "High" else if 2000 < hhi then "Moderate" else "Low"

structure ConcentrationResult where
  herfindahl_index : ℚ
  gini_coefficient : ℚ
  top_state : String
  top_state_percentage : ℚ
  top_5_states_share : ℚ
  top_10_states_share : ℚ
  num_states : ℕ
  concentration_level : String
deriving Repr, DecidableEq

/-- `GeographicAnalysis.calculate_concentration`.  Returns `none` (the empty
    dict `{}`) when the state or enrollment column is unresolved, or when the
    dataset is empty (`idxmax` of an empty series raises, and the blanket
    `except` turns that into `{}`).  A nonempty dataset whose grand total is
    zero makes the source produce NaN/inf shares — degenerate inputs outside
    every verified statement, where `ℚ` division-by-zero junk stands in. -/
def calculate_concentration (state_col enrol_col : Option String)
    (rows : List (String × ℚ)) : Option ConcentrationResult :=
  if state_col.isNone || enrol_col.isNone then none
  else
    match idxmaxPair (stateShares rows) with
    | none => none
    | some top =>
      let desc := sortDescQ (shareVals rows)
      some {
        herfindahl_index := herfindahlOf rows
        gini_coefficient := giniOf (sortAscQ (shareVals rows))
        top_state := top.1
        top_state_percentage := top.2
        top_5_states_share := (desc.take 5).sum
        top_10_states_share := (desc.take 10).sum
        num_states := (stateKeys rows).length
        concentration_level := concentrationLevel (herfindahlOf rows) }

/-! ## Temporal analysis (`AdvancedTemporalAnalysis.calculate_growth_rate`)

A dataset is the list of `(date, total)` pairs of the resolved date and
enrollment columns; dates are day ordinals in `ℤ`.  `groupby(date).sum()`
followed by `sort_values(date)` is modelled by aggregating over the sorted
distinct dates. -/

/-- Distinct dates in ascending order. -/
def dateKeys (rows : List (ℤ × ℚ)) : List ℤ :=
  List.insertionSort (fun a b => a ≤ b) (rows.map Prod.fst).dedup

/-- Sum of the enrollment column over the rows of one date. -/
def dateGroupSum (rows : List (ℤ × ℚ)) (d : ℤ) : ℚ :=
  ((rows.filter (fun r => r.1 == d)).map Prod.snd).sum

/-- The per-date aggregated series, in date order. -/
def dailyTotals (rows : List (ℤ × ℚ)) : List ℚ :=
  (dateKeys rows).map (dateGroupSum rows)

/-- `series.pct_change() * 100`: the first entry is NaN (`none`), entry `i`
    is `(x_i - x_(i-1)) / x_(i-1) * 100`.  A zero previous total makes
    pandas produce ±inf/NaN — degenerate inputs outside every verified
    statement, where the `ℚ` division-by-zero junk value stands in. -/
def growthSeries : List ℚ → List (Option ℚ)
  | [] => []
  | x :: xs => none :: (List.zip (x :: xs) xs).map (fun p => some ((p.2 - p.1) / p.1 * 100))

/-- pandas `.mean()`, which skips NaN entries. -/
def nanMean (l : List (Option ℚ)) : ℚ :=
  ((l.filterMap id).sum) / ((l.filterMap id).length : ℚ)

/-- The fixed trend thresholds of the source: trailing mean `> 5` upward,
    `< -5` downward, else stable. -/
def classifyTrend (recent : ℚ) : String :=
  if recent > 5 then "upward" else if recent < -5 then "downward" else "stable"

/-- `daily_data['growth'].tail(10).mean()`: mean of the non-NaN entries
    among the last 10 growth values. -/
def trailingMeanGrowth (rows : List (ℤ × ℚ)) : ℚ :=
  let g := growthSeries (dailyTotals rows)
  nanMean (g.drop (g.length - 10))

/-- `series.idxmax()` as a positional index: first position attaining the
    maximum. -/
def argmaxIdxAux : List ℚ → ℕ → ℕ → ℚ → ℕ
  | [], _, bi, _ => bi
  | x :: xs, i, bi, bv => if bv < x then argmaxIdxAux xs (i + 1) i x else argmaxIdxAux xs (i + 1) bi bv

def argmaxIdx : List ℚ → ℕ
  | [] => 0
  | x :: xs => argmaxIdxAux xs 1 0 x

/-- Python `int()`: truncation toward zero. -/
def intTrunc (q : ℚ) : ℤ := if q < 0 then ⌈q⌉ else ⌊q⌋

structure GrowthStats where
  avg_growth_rate : ℚ
  peak_growth_rate : ℚ
  lowest_growth_rate : ℚ
  trend_direction : String
  peak_day : ℤ
  peak_count : ℚ
  total_records : ℤ
deriving Repr, DecidableEq

/-- The three shapes `calculate_growth_rate` can return: the empty dict `{}`
    (unresolved columns), the fixed 3-key default dict
    `{'avg_growth_rate': 0, 'trend_direction': 'stable', 'peak_day': None}`
    (fewer than 2 aggregated periods), or the full metric dict. -/
inductive GrowthResult where
  | empty : GrowthResult
  | shortSeries (avg_growth_rate : ℚ) (trend_direction : String) (peak_day : Option ℤ) : GrowthResult
  | full (stats : GrowthStats) : GrowthResult
deriving Repr, DecidableEq

/-- `AdvancedTemporalAnalysis.calculate_growth_rate`. -/
def calculate_growth_rate (date_col enrol_col : Option String)
    (rows : List (ℤ × ℚ)) : GrowthResult :=
  if date_col.isNone || enrol_col.isNone then .empty
  else
    let totals := dailyTotals rows
    if totals.length < 2 then .shortSeries 0 "stable" none
    else
      let growth := growthSeries totals
      let idx := argmaxIdx totals
      .full {
        avg_growth_rate := nanMean growth
        peak_growth_rate := ((growth.filterMap id).max?).getD 0
        lowest_growth_rate := ((growth.filterMap id).min?).getD 0
        trend_direction := classifyTrend (trailingMeanGrowth rows)
        peak_day := (dateKeys rows).getD idx 0
        peak_count := totals.getD idx 0
        total_records := intTrunc totals.sum }

/-! ## Insight records and the analysis-results mapping (`insightGenerator.py`)

`analysis_results` is the dict the dashboard assembles; every generator reads
it through `.get(family, {})` followed by `.get(key, default)`, so an absent
family is indistinguishable from a family record whose fields are all absent:
each family is a record of `Option` fields (default `none`). -/

structure Insight where
  title : String
  message : String
  details : String
  action : String
  severity : String
  type : String
deriving Repr, DecidableEq

structure WeeklyStats where
  avg_weekly : Option ℤ := none
  weekly_variance : Option ℚ := none
deriving Repr, DecidableEq

/-- `temporal_metrics`.  `peak_day` is carried as its display string (the
    source interpolates the raw date value into the message).  The
    `weekly_stats` sub-dict is read by the weekly-consistency generator even
    though the dashboard never populates it. -/
structure TemporalMetrics where
  avg_growth_rate : Option ℚ := none
  trend_direction : Option String := none
  peak_day : Option String := none
  peak_count : Option ℤ := none
  total_records : Option ℤ := none
  weekly_stats : WeeklyStats := {}
deriving Repr, DecidableEq

structure GeographicMetrics where
  herfindahl_index : Option ℚ := none
  top_state_percentage : Option ℚ := none
  top_state : Option String := none
  num_states : Option ℕ := none
deriving Repr, DecidableEq

structure DemographicMetrics where
  age_diversity_index : Option ℚ := none
  dominant_age_percentage : Option ℚ := none
  dominant_age : Option String := none
  gender_distribution : List (String × ℤ) := []
deriving Repr, DecidableEq

structure IssueMetrics where
  duplicate_records : Option ℤ := none
  total_issues : Option ℤ := none
deriving Repr, DecidableEq

structure QualityMetrics where
  overall_completeness : Option ℚ := none
  issues : IssueMetrics := {}
  total_records : Option ℤ := none
deriving Repr, DecidableEq

/-- One `biometric_metrics` entry: `{'count': ..., 'percentage': ...}`. -/
structure BioCoverage where
  count : ℤ
  percentage : ℚ
deriving Repr, DecidableEq

structure UpdateMetrics where
  biometric_to_enrol_ratio : Option ℚ := none
  demographic_to_enrol_ratio : Option ℚ := none
deriving Repr, DecidableEq

structure TrendMetrics where
  volatility_level : Option String := none
deriving Repr, DecidableEq

structure AnalysisResults where
  temporal_metrics : TemporalMetrics := {}
  geographic_metrics : GeographicMetrics := {}
  demographic_metrics : DemographicMetrics := {}
  quality_metrics : QualityMetrics := {}
  biometric_metrics : List (String × BioCoverage) := []
  update_metrics : UpdateMetrics := {}
  trend_metrics : TrendMetrics := {}
deriving Repr, DecidableEq

/-- The dashboard wiring `'geographic_metrics': geo_analyzer.calculate_concentration()`:
    the keys of a successful concentration dict line up with the keys the
    geographic insight generators read. -/
def ConcentrationResult.metrics (cr : ConcentrationResult) : GeographicMetrics :=
  { herfindahl_index := some cr.herfindahl_index
    top_state_percentage := some cr.top_state_percentage
    top_state := some cr.top_state
    num_states := some cr.num_states }

def geographicResults : Option ConcentrationResult → GeographicMetrics
  | none => {}
  | some cr => cr.metrics

/-- `InsightGenerator.generate_geographic_insight`. -/
def generate_geographic_insight (r : AnalysisResults) : Insight :=
  let hhi := r.geographic_metrics.herfindahl_index.getD 0
  let top_state_pct := r.geographic_metrics.top_state_percentage.getD 0
  let top_state := r.geographic_metrics.top_state.getD "N/A"
  if hhi > 2500 then
    { title := "HIGH CONCENTRATION - Unbalanced Distribution"
      message := top_state ++ " dominates with " ++ fmt1 top_state_pct ++
        "% of all enrollments. The enrollment is heavily concentrated in one region. This means most of the users are from a specific area."
      details := "High concentration (HHI > 2500) indicates unbalanced geographic distribution. This creates risk if that region experiences disruption."
      action := "Launch targeted campaigns in underserved regions"
      severity := "warning"
      type := "geographic" }
  else if hhi > 2000 then
    { title := "MODERATE CONCENTRATION - Room for Growth"
      message := top_state ++ " leads with " ++ fmt1 top_state_pct ++
        "% of enrollments. The distribution is somewhat unbalanced but manageable. There\x27s good opportunity for geographic expansion."
      details := "Moderate concentration suggests some regional imbalance but with diversification potential."
      action := "Focus on expanding in tier-2 and tier-3 cities"
      severity := "info"
      type := "geographic" }
  else
    { title := "BALANCED DISTRIBUTION - Well Spread"
      message := "Enrollments are well-distributed across regions. Top state (" ++
        top_state ++ ") has only " ++ fmt1 top_state_pct ++
        "%. This excellent geographic diversity reduces regional risk."
      details := "Low concentration (HHI < 2000) indicates healthy geographic distribution."
      action := "Continue expanding in new regions"
      severity := "positive"
      type := "geographic" }

/-! ## Demographic analysis (`DemographicAnalysis.analyze_age_distribution`)

The input is the list of `(column, int(df[col].sum()))` pairs over the
resolved age columns, in column order (the order of the Python dict).  The
Shannon-entropy field is omitted (see the file header). -/

structure AgeDistResult where
  age_diversity_index : ℚ
  dominant_age : String
  dominant_age_percentage : ℚ
  age_groups : List (String × ℚ)
  age_totals : List (String × ℤ)
deriving Repr, DecidableEq

/-- `DemographicAnalysis.analyze_age_distribution`: `none` is the empty dict
    returned when no age column resolves. -/
def analyze_age_distribution (age_totals : List (String × ℤ)) : Option AgeDistResult :=
  if age_totals.isEmpty then none
  else
    let total : ℤ := (age_totals.map Prod.snd).sum
    let age_percentages := age_totals.map
      (fun p => (p.1, if 0 < total then (p.2 : ℚ) / (total : ℚ) * 100 else 0))
    let diversity : ℚ :=
      if 0 < total then 1 - (age_totals.map (fun p => ((p.2 : ℚ) / (total : ℚ)) ^ 2)).sum
      else 0
    let dominant := (idxmaxPair age_percentages).getD ("", 0)
    some { age_diversity_index := diversity
           dominant_age := dominant.1
           dominant_age_percentage := dominant.2
           age_groups := age_percentages
           age_totals := age_totals }

/-! ## Data quality (`DataQualityAnalysis.calculate_completeness`)

A dataframe is a column count plus one presence row per record: `true` for a
populated cell, `false` for a missing one. -/

structure CompletenessResult where
  overall_completeness : ℚ
  column_completeness : List ℚ
  null_percentage : ℚ
deriving Repr, DecidableEq

/-- `df.count().sum()`: the number of populated cells. -/
def nonNullCells (rows : List (List Bool)) : ℕ :=
  (rows.map (fun row => row.countP (fun b => b))).sum

/-- `DataQualityAnalysis.calculate_completeness`.  On an empty dataframe the
    per-column ratio divides by a zero row count, where pandas yields NaN
    and the `ℚ` junk value stands in — outside every verified statement. -/
def calculate_completeness (ncols : ℕ) (rows : List (List Bool)) : CompletenessResult :=
  let total_cells : ℕ := rows.length * ncols
  let completeness : ℚ :=
    if 0 < total_cells then (nonNullCells rows : ℚ) / (total_cells : ℚ) * 100 else 0
  { overall_completeness := completeness
    column_completeness := (List.range ncols).map (fun j =>
      ((rows.countP (fun row => row.getD j false)) : ℚ) / (rows.length : ℚ) * 100)
    null_percentage := 100 - completeness }

/-! ## The remaining insight generators (`insightGenerator.py`) -/

/-- `InsightGenerator.generate_temporal_insight`. -/
def generate_temporal_insight (r : AnalysisResults) : Insight :=
  let growth := r.temporal_metrics.avg_growth_rate.getD 0
  let trend := r.temporal_metrics.trend_direction.getD "stable"
  let peak_count := r.temporal_metrics.peak_count.getD 0
  if growth > 20 then
    { title := "EXCEPTIONAL GROWTH - Accelerating Fast"
      message := "The enrollment is growing at " ++ fmt1 growth ++
        "% daily - this is outstanding! It is experiencing rapid expansion with peak day reaching " ++
        fmtComma peak_count ++ " enrollments. Trend: " ++ strUpper trend
      details := "Growth above 20% daily indicates explosive expansion. This is exceptional and requires infrastructure scaling to handle the volume."
      action := "Scale infrastructure immediately to handle increased volume"
      severity := "positive"
      type := "temporal" }
  else if growth > 10 then
    { title := "STRONG GROWTH - On Track"
      message := "Daily growth rate is " ++ fmt1 growth ++
        "% - excellent performance! This system is expanding well with consistent positive momentum. Trend: " ++
        strUpper trend
      details := "Growth between 10-20% is strong and sustainable. The enrollment system is performing well."
      action := "Maintain momentum and continue monitoring capacity"
      severity := "positive"
      type := "temporal" }
  else if growth > 5 then
    { title := "STEADY GROWTH - Healthy Progress"
      message := "Enrollment is growing steadily at " ++ fmt1 growth ++
        "% daily. This is on track with consistent, healthy expansion. Trend: " ++ strUpper trend
      details := "5-10% daily growth is healthy and sustainable long-term."
      action := "Continue current strategy while planning for scaling"
      severity := "info"
      type := "temporal" }
  else
    { title := "SLOW GROWTH - Needs Attention"
      message := "Growth rate is " ++ fmt1 growth ++ "% daily - below target. Trend: " ++
        strUpper trend ++ ". The enrollment needs a boost."
      details := "Below 5% daily growth suggests the need for campaign improvements."
      action := "Review marketing campaigns and identify growth barriers"
      severity := "warning"
      type := "temporal" }

/-- `InsightGenerator.generate_peak_activity_insight`. -/
def generate_peak_activity_insight (r : AnalysisResults) : Insight :=
  let peak_count := r.temporal_metrics.peak_count.getD 0
  let peak_day := r.temporal_metrics.peak_day.getD "N/A"
  { title := "PEAK ACTIVITY - The Busiest Day"
    message := "The peak enrollment day recorded " ++ fmtComma peak_count ++
      " registrations on " ++ peak_day ++
      ". This shows the system\x27s maximum capacity and user interest level."
    details := "Understanding peak capacity helps with infrastructure planning and resource allocation."
    action := "Use peak day data to plan infrastructure and staffing"
    severity := "info"
    type := "temporal" }

/-- `InsightGenerator.generate_weekly_consistency_insight`. -/
def generate_weekly_consistency_insight (r : AnalysisResults) : Insight :=
  let avg_weekly := r.temporal_metrics.weekly_stats.avg_weekly.getD 0
  let variance := r.temporal_metrics.weekly_stats.weekly_variance.getD 0
  let cv : ℚ :=
    if variance ≠ 0 ∧ avg_weekly ≠ 0 then variance / (avg_weekly : ℚ) * 100 else 0
  let status := if cv < 15 then "Highly Consistent - Predictable patterns"
    else if cv < 30 then "Moderately Consistent - Some variation"
    else "Highly Variable - Unpredictable patterns"
  let severity := if cv < 15 then "positive" else if cv < 30 then "info" else "warning"
  { title := "WEEKLY PATTERNS - Predictability Check"
    message := "Average weekly enrollment: " ++ fmtComma avg_weekly ++
      " registrations. Status: " ++ status ++
      ". This tells how predictable the enrollment patterns are."
    details := "Low variation means you can forecast demand accurately. High variation requires flexible resources."
    action := "Plan staffing and resources based on consistency level"
    severity := severity
    type := "temporal" }

/-- `InsightGenerator.generate_state_coverage_insight`. -/
def generate_state_coverage_insight (r : AnalysisResults) : Insight :=
  let num_states := r.geographic_metrics.num_states.getD 0
  let coverage_pct : ℚ := (num_states : ℚ) / 36 * 100
  let status := if num_states ≥ 30 then "Excellent - Nearly complete coverage"
    else if num_states ≥ 20 then "Good - Significant coverage"
    else "Limited - Room for expansion"
  let severity := if num_states ≥ 30 then "positive"
    else if num_states ≥ 20 then "info" else "warning"
  { title := "GEOGRAPHIC COVERAGE - State Distribution"
    message := "The service covers " ++ toString num_states ++ " states/UTs (" ++
      fmt0 coverage_pct ++ "% of India). Status: " ++ status ++
      ". This shows the national reach."
    details := "Higher coverage means better national presence and reduced geographic risk."
    action := if num_states < 36 then
        "Plan expansion to reach remaining " ++ toString ((36 : ℤ) - (num_states : ℤ)) ++ " regions"
      else "Maintain national coverage"
    severity := severity
    type := "geographic" }

/-- `InsightGenerator.generate_demographic_insight`. -/
def generate_demographic_insight (r : AnalysisResults) : Insight :=
  let diversity := r.demographic_metrics.age_diversity_index.getD 0
  let dominant_pct := r.demographic_metrics.dominant_age_percentage.getD 0
  let dominant_age := r.demographic_metrics.dominant_age.getD "N/A"
  if diversity > 0.8 then
    { title := "EXCELLENT DIVERSITY - All Groups Well Represented"
      message := "The enrollment is highly diverse across all age groups. No single age group dominates (largest is " ++
        fmt1 dominant_pct ++ "%). This indicates inclusive outreach and balanced participation."
      details := "High diversity (>0.8) means the service appeals to all demographics."
      action := "Maintain inclusive engagement strategies"
      severity := "positive"
      type := "demographic" }
  else if diversity > 0.6 then
    { title := "GOOD DIVERSITY - Balanced Participation"
      message := "Most age groups are well-represented, though " ++ dominant_age ++
        " leads with " ++ fmt1 dominant_pct ++ "%. The enrollment is reasonably balanced."
      details := "Moderate diversity (0.6-0.8) shows balanced but not perfect representation."
      action := "Monitor underrepresented groups for equity"
      severity := "info"
      type := "demographic" }
  else if diversity > 0.4 then
    { title := "MODERATE SKEW - Some Groups Underrepresented"
      message := dominant_age ++ " accounts for " ++ fmt1 dominant_pct ++
        "% of enrollments. Other age groups are underrepresented. This needs attention."
      details := "Lower diversity suggests some demographic groups are not being reached."
      action := "Launch targeted outreach for underrepresented age groups"
      severity := "warning"
      type := "demographic" }
  else
    { title := "CRITICAL SKEW - Severe Demographic Imbalance"
      message := dominant_age ++ " dominates with " ++ fmt1 dominant_pct ++
        "% of enrollments. Other demographic groups are significantly underrepresented. This is a critical gap that needs immediate action."
      details := "Very low diversity indicates major demographic gaps in the service."
      action := "Launch immediate diversity and inclusion campaigns"
      severity := "critical"
      type := "demographic" }

/-- `InsightGenerator.generate_gender_insight`: the empty dict (`none`) when
    no gender distribution is present.  `sorted(..., reverse=True)` is the
    stable descending sort by count. -/
def generate_gender_insight (r : AnalysisResults) : Option Insight :=
  match List.insertionSort (fun a b : String × ℤ => b.2 ≤ a.2)
      r.demographic_metrics.gender_distribution with
  | [] => none
  | mx :: rest =>
    let mn := rest.getLastD mx
    let ratio : ℚ := if 0 < mn.2 then (mx.2 : ℚ) / (mn.2 : ℚ) else 0
    let status := if ratio < 1.2 then "Excellent - Nearly equal participation"
      else if ratio < 1.5 then "Good - Fairly balanced"
      else "Imbalanced - One gender dominates"
    let severity := if ratio < 1.2 then "positive" else if ratio < 1.5 then "info" else "warning"
    some
      { title := "GENDER BALANCE - Equality Check"
        message := "Gender distribution ratio is " ++ fmt2 ratio ++ ":1 (" ++ mx.1 ++
          " to " ++ mn.1 ++ "). Status: " ++ status ++
          ". Aim for equal participation from all genders."
        details := "Balanced gender representation ensures inclusive service delivery."
        action := "If imbalanced, increase outreach to underrepresented gender"
        severity := severity
        type := "demographic" }

/-- `InsightGenerator.generate_quality_insight`. -/
def generate_quality_insight (r : AnalysisResults) : Insight :=
  let completeness := r.quality_metrics.overall_completeness.getD 0
  let total_issues := r.quality_metrics.issues.total_issues.getD 0
  if completeness > 97 then
    { title := "EXCELLENT DATA QUALITY - Premium Standard"
      message := "Data completeness is " ++ fmt1 completeness ++
        "%. The data is pristine with minimal issues. This ensures reliable analysis and decision-making."
      details := "Excellent data quality (>97%) means high confidence in analytics."
      action := "Maintain current data collection standards"
      severity := "positive"
      type := "quality" }
  else if completeness > 93 then
    { title := "GOOD DATA QUALITY - Reliable"
      message := "Data completeness is " ++ fmt1 completeness ++
        "%. Quality is good with minimal issues. The data is reliable for analysis."
      details := "Good data quality (93-97%) is acceptable for most purposes."
      action := "Monitor and continue gradual improvements"
      severity := "info"
      type := "quality" }
  else if completeness > 85 then
    { title := "MODERATE QUALITY - Needs Attention"
      message := "Data completeness is " ++ fmt1 completeness ++ "% with " ++
        fmtComma total_issues ++
        " identified issues. Quality needs improvement for reliable analysis."
      details := "Below 93% completeness means important data gaps exist."
      action := "Identify and fix data collection gaps systematically"
      severity := "warning"
      type := "quality" }
  else
    { title := "POOR DATA QUALITY - Critical"
      message := "Data completeness is only " ++ fmt1 completeness ++ "% with " ++
        fmtComma total_issues ++ " critical issues. Data quality is severely compromised."
      details := "Below 85% completeness severely impacts reliability."
      action := "Urgently review and fix data collection procedures"
      severity := "critical"
      type := "quality" }

/-- `InsightGenerator.generate_duplicates_insight`. -/
def generate_duplicates_insight (r : AnalysisResults) : Insight :=
  let duplicates := r.quality_metrics.issues.duplicate_records.getD 0
  let total_records := r.quality_metrics.total_records.getD 1
  let dup_pct : ℚ :=
    if 0 < total_records then (duplicates : ℚ) / (total_records : ℚ) * 100 else 0
  let status := if duplicates = 0 then "Perfect - No duplicates"
    else if dup_pct < 1 / 2 then "Acceptable - Minimal duplicates"
    else "Concerning - Significant duplication"
  let severity := if duplicates = 0 then "positive"
    else if dup_pct < 1 / 2 then "info" else "warning"
  { title := "DUPLICATE RECORDS - Data Integrity Check"
    message := "Found " ++ fmtComma duplicates ++ " duplicate records (" ++ fmt2 dup_pct ++
      "%). Status: " ++ status ++ ". This affects data accuracy."
    details := "Duplicates can skew analysis results and inflate enrollment numbers."
    action := "Implement duplicate detection and removal procedures"
    severity := severity
    type := "quality" }

/-- `InsightGenerator.generate_biometric_insight`: the empty dict (`none`)
    when `biometric_metrics` is empty.  The per-entry values are the
    coverage dicts, so `np.mean` ranges over every `percentage`. -/
def generate_biometric_insight (r : AnalysisResults) : Option Insight :=
  match r.biometric_metrics with
  | [] => none
  | bio =>
    let bio_ages := bio.map (fun p => p.2.percentage)
    let avg_coverage : ℚ := bio_ages.sum / (bio_ages.length : ℚ)
    let status := if avg_coverage > 90 then "Excellent - High biometric collection"
      else if avg_coverage > 70 then "Good - Solid coverage"
      else "Low - Needs improvement"
    let severity := if avg_coverage > 90 then "positive"
      else if avg_coverage > 70 then "info" else "warning"
    some
      { title := "BIOMETRIC COVERAGE - Fingerprint Enrollment"
        message := "Biometric enrollment coverage is " ++ fmt1 avg_coverage ++
          "%. Status: " ++ status ++ ". This shows fingerprint data collection rates."
        details := "Higher biometric coverage ensures better identity verification capability."
        action := "Increase biometric collection during enrollment"
        severity := severity
        type := "biometric" }

/-- `InsightGenerator.generate_update_insight`. -/
def generate_update_insight (r : AnalysisResults) : Insight :=
  let bio_ratio := r.update_metrics.biometric_to_enrol_ratio.getD 0
  let demo_ratio := r.update_metrics.demographic_to_enrol_ratio.getD 0
  let total_update_ratio := bio_ratio + demo_ratio
  let status := if total_update_ratio > 1 / 2 then "High - Frequent updates"
    else if total_update_ratio > 1 / 5 then "Moderate - Regular updates"
    else "Low - Limited updates"
  let severity := if total_update_ratio > 1 / 2 then "positive"
    else if total_update_ratio > 1 / 5 then "info" else "warning"
  { title := "UPDATE FREQUENCY - System Activity"
    message := "Update-to-enrollment ratio is " ++ fmt2 total_update_ratio ++
      ". Status: " ++ status ++ ". This shows how active users are updating their data."
    details := "Higher update ratios indicate engaged users maintaining accurate information."
    action := "Encourage regular data updates and maintenance"
    severity := severity
    type := "update" }

/-- `InsightGenerator.generate_volatility_insight`: the `volatility_msg`
    dict lookup with default `('Unknown', 'info')`. -/
def generate_volatility_insight (r : AnalysisResults) : Insight :=
  let volatility_level := r.trend_metrics.volatility_level.getD "Medium"
  let pair : String × String :=
    if volatility_level = "High" then
      ("Highly Variable - Unpredictable daily changes", "warning")
    else if volatility_level = "Medium" then
      ("Moderate Variability - Some daily fluctuation", "info")
    else if volatility_level = "Low" then
      ("Stable - Consistent daily patterns", "positive")
    else ("Unknown", "info")
  { title := "ENROLLMENT VOLATILITY - Stability Check"
    message := "Volatility Level: " ++ pair.1 ++
      ". This affects resource planning and forecasting."
    details := volatility_level ++ " volatility means daily enrollments " ++
      (if volatility_level = "High" then "vary significantly"
       else if volatility_level = "Medium" then "fluctuate moderately"
       else "remain stable") ++ "."
    action := if volatility_level = "High" then "Use flexible resource planning"
      else if volatility_level = "Medium" then "Maintain current planning"
      else "Optimize fixed resource allocation"
    severity := pair.2
    type := "trend" }

/-- `InsightGenerator.generate_capacity_insight`. -/
def generate_capacity_insight (r : AnalysisResults) : Insight :=
  let peak_count := r.temporal_metrics.peak_count.getD 0
  let total_records := r.temporal_metrics.total_records.getD 0
  let avg_daily : ℚ :=
    if 0 < total_records then (total_records : ℚ) / 365 else (total_records : ℚ)
  let utilization : ℚ :=
    if 0 < peak_count then avg_daily / (peak_count : ℚ) * 100 else 0
  let status := if utilization > 80 then "High Load - Operating near capacity"
    else if utilization > 50 then "Moderate Load - Good headroom"
    else "Low Load - Plenty of capacity"
  let severity := if utilization > 80 then "warning"
    else if utilization > 50 then "info" else "positive"
  { title := "SYSTEM CAPACITY - Load Analysis"
    message := "Average-to-peak utilization is " ++ fmt1 utilization ++ "%. Status: " ++
      status ++ ". This shows how efficiently the system capacity is being used."
    details := "Capacity planning ensures it can handle peak loads without degradation."
    action := if utilization > 80 then "Upgrade infrastructure urgently"
      else if utilization > 50 then "Monitor capacity trends"
      else "Maintain current capacity"
    severity := severity
    type := "capacity" }

/-! ## Insight assembly, recommendations, summary, export -/

/-- `InsightGenerator.generate_all_insights`: the thirteen generators in
    source order, with the falsy (empty-dict) results filtered out — only
    the gender and biometric generators can produce one. -/
def generate_all_insights (r : AnalysisResults) : List Insight :=
  ([some (generate_quality_insight r),
    some (generate_temporal_insight r),
    some (generate_geographic_insight r),
    some (generate_demographic_insight r),
    some (generate_peak_activity_insight r),
    some (generate_weekly_consistency_insight r),
    some (generate_state_coverage_insight r),
    generate_gender_insight r,
    some (generate_duplicates_insight r),
    generate_biometric_insight r,
    some (generate_update_insight r),
    some (generate_volatility_insight r),
    some (generate_capacity_insight r)]).filterMap id

/-- The four literal default recommendations of the source. -/
def default_recommendations : List String :=
  ["Monitor all key metrics regularly",
   "Maintain current data collection standards",
   "Review system performance weekly",
   "Plan quarterly improvement initiatives"]

/-- `InsightGenerator.generate_recommendations`: critical/warning actions in
    insight order, then positive actions, defaults when nothing qualified,
    truncated to 10. -/
def generate_recommendations (insights : List Insight) : List String :=
  let recs :=
    (insights.filter (fun i => i.severity == "critical" || i.severity == "warning")).map
        (fun i => i.action) ++
      (insights.filter (fun i => i.severity == "positive")).map (fun i => i.action)
  (if recs.isEmpty then default_recommendations else recs).take 10

/-- `InsightGenerator.get_insights_by_severity`. -/
def get_insights_by_severity (insights : List Insight) (severity : String) : List Insight :=
  insights.filter (fun i => i.severity == severity)

/-- The HTML banner assembled by `get_summary_text`. -/
def mkSummaryBanner (color status : String) (positive warning critical : ℕ) : String :=
  "<div style=\"background-color:" ++ color ++
    "; color:white; padding:15px; border-radius:8px; margin-bottom:20px;\">" ++
    "<h1 style=\"margin:8 px; font-size:18px;\"> " ++ status ++ "</h2>" ++
    "<p style=\"margin:8px 0 0 0; font-size:14px; font-weight:bold;\">" ++
    "Dashboard shows: " ++ toString positive ++ " positive metrics, " ++
    toString warning ++ " warnings, " ++ toString critical ++
    " critical issues. Review details below.</p>" ++ "</div>"

/-- `InsightGenerator.get_summary_text` over the generated insight list. -/
def get_summary_text (insights : List Insight) : String :=
  let critical := (get_insights_by_severity insights "critical").length
  let warning := (get_insights_by_severity insights "warning").length
  let positive := (get_insights_by_severity insights "positive").length
  if critical > 0 then
    mkSummaryBanner "#ef4444" " CRITICAL - Immediate Action Required" positive warning critical
  else if warning > 0 then
    mkSummaryBanner "#f59e0b" " CAUTION - Review Needed" positive warning critical
  else
    mkSummaryBanner "#10b981" " ON TRACK - Healthy Performance" positive warning critical

structure InsightSummary where
  total_insights : ℕ
  critical : ℕ
  warning : ℕ
  positive : ℕ
  info : ℕ
deriving Repr, DecidableEq

structure JsonSafeExport where
  insights : List Insight
  recommendations : List String
  summary : InsightSummary
deriving Repr, DecidableEq

/-- `InsightGenerator.to_json_safe` of a generator constructed on `r`. -/
def to_json_safe (r : AnalysisResults) : JsonSafeExport :=
  let insights := generate_all_insights r
  { insights := insights
    recommendations := generate_recommendations insights
    summary :=
      { total_insights := insights.length
        critical := (get_insights_by_severity insights "critical").length
        warning := (get_insights_by_severity insights "warning").length
        positive := (get_insights_by_severity insights "positive").length
        info := (get_insights_by_severity insights "info").length } }

/-- The documented severity vocabulary: every retained insight carries one
    of these four severities. -/
def sevOK (i : Insight) : Bool :=
  i.severity == "positive" || i.severity == "info" ||
    i.severity == "warning" || i.severity == "critical"

/-! ## Claims -/

/-! ### Supporting lemmas: list sums -/

theorem sumMapAdd {α : Type} (l : List α) (f g : α → ℚ) :
    (l.map (fun x => f x + g x)).sum = (l.map f).sum + (l.map g).sum := by
  induction l with
  | nil => simp
  | cons a t ih => simp only [List.map_cons, List.sum_cons, ih]; ring

theorem sumMapMul {α : Type} (l : List α) (f : α → ℚ) (c : ℚ) :
    (l.map (fun x => f x * c)).sum = (l.map f).sum * c := by
  induction l with
  | nil => simp
  | cons a t ih => simp only [List.map_cons, List.sum_cons, ih]; ring

/-- Squares of values that lie in `[0, c]` sum to at most `c` times the sum. -/
theorem sum_sq_le_mul_sum (l : List ℚ) (c : ℚ)
    (h0 : ∀ x ∈ l, 0 ≤ x) (hc : ∀ x ∈ l, x ≤ c) :
    (l.map (fun x => x ^ 2)).sum ≤ c * l.sum := by
  induction l with
  | nil => simp
  | cons a t ih =>
    simp only [List.map_cons, List.sum_cons, mul_add]
    have ha : 0 ≤ a := h0 a (List.mem_cons_self a t)
    have hac : a ≤ c := hc a (List.mem_cons_self a t)
    have h1 : a ^ 2 ≤ c * a := by nlinarith
    have h2 := ih (fun x hx => h0 x (List.mem_cons_of_mem _ hx))
      (fun x hx => hc x (List.mem_cons_of_mem _ hx))
    linarith

theorem exists_pos_of_sum_pos (l : List ℚ) (h : 0 < l.sum) : ∃ x ∈ l, 0 < x := by
  induction l with
  | nil => simp at h
  | cons a t ih =>
    by_cases ha : 0 < a
    · exact ⟨a, List.mem_cons_self a t, ha⟩
    · push_neg at ha
      simp only [List.sum_cons] at h
      obtain ⟨x, hx, hxp⟩ := ih (by linarith)
      exact ⟨x, List.mem_cons_of_mem _ hx, hxp⟩

/-! ### Supporting lemmas: group-by partition -/

theorem sum_ite_zero (keys : List String) (a : String) (v : ℚ) (h : a ∉ keys) :
    (keys.map (fun s => if a == s then v else 0)).sum = 0 := by
  induction keys with
  | nil => simp
  | cons k t ih =>
    have h1 : (a == k) = false :=
      beq_eq_false_iff_ne.mpr (fun hh => h (hh ▸ List.mem_cons_self a t))
    have h2 : a ∉ t := fun hm => h (List.mem_cons_of_mem _ hm)
    simp only [List.map_cons, List.sum_cons, h1, Bool.false_eq_true, if_false, zero_add]
    exact ih h2

theorem sum_ite_single (keys : List String) (a : String) (v : ℚ)
    (hnd : keys.Nodup) (ha : a ∈ keys) :
    (keys.map (fun s => if a == s then v else 0)).sum = v := by
  induction keys with
  | nil => simp at ha
  | cons k t ih =>
    rcases List.mem_cons.mp ha with h | h
    · subst h
      have hnot : a ∉ t := (List.nodup_cons.mp hnd).1
      simp only [List.map_cons, List.sum_cons, beq_self_eq_true, if_true]
      rw [sum_ite_zero t a v hnot, add_zero]
    · have h1 : (a == k) = false := by
        apply beq_eq_false_iff_ne.mpr
        intro hh
        exact (List.nodup_cons.mp hnd).1 (hh ▸ h)
      simp only [List.map_cons, List.sum_cons, h1, Bool.false_eq_true, if_false, zero_add]
      exact ih (List.nodup_cons.mp hnd).2 h

theorem groupSum_cons (p : String × ℚ) (rows : List (String × ℚ)) (s : String) :
    groupSum (p :: rows) s = (if p.1 == s then p.2 else 0) + groupSum rows s := by
  simp only [groupSum, List.filter_cons]
  cases hb : (p.1 == s) <;> simp [hb]

/-- Summing the per-group totals over a duplicate-free cover of the keys
    recovers the grand total. -/
theorem sum_groupSum (rows : List (String × ℚ)) (keys : List String)
    (hnd : keys.Nodup) (hcov : ∀ p ∈ rows, p.1 ∈ keys) :
    (keys.map (fun s => groupSum rows s)).sum = grandTotal rows := by
  induction rows with
  | nil => simp [groupSum, grandTotal]
  | cons p t ih =>
    have h1 : keys.map (fun s => groupSum (p :: t) s) =
        keys.map (fun s => (if p.1 == s then p.2 else 0) + groupSum t s) :=
      List.map_congr_left (fun s _ => groupSum_cons p t s)
    rw [h1, sumMapAdd]
    rw [sum_ite_single keys p.1 p.2 hnd (hcov p (List.mem_cons_self p t))]
    rw [ih (fun q hq => hcov q (List.mem_cons_of_mem _ hq))]
    simp [grandTotal]

/-! ### Supporting lemmas: the share series -/

theorem stateKeys_nodup (rows : List (String × ℚ)) : (stateKeys rows).Nodup :=
  ((List.perm_insertionSort _ _).nodup_iff).mpr (List.nodup_dedup _)

theorem mem_stateKeys (rows : List (String × ℚ)) (p : String × ℚ) (hp : p ∈ rows) :
    p.1 ∈ stateKeys rows := by
  apply (List.perm_insertionSort _ _).mem_iff.mpr
  rw [List.mem_dedup]
  exact List.mem_map_of_mem Prod.fst hp

theorem shareVals_eq (rows : List (String × ℚ)) :
    shareVals rows =
      (stateKeys rows).map (fun s => groupSum rows s / grandTotal rows * 100) := by
  simp [shareVals, stateShares, List.map_map]

theorem shareVals_sum (rows : List (String × ℚ)) (ht : grandTotal rows ≠ 0) :
    (shareVals rows).sum = 100 := by
  rw [shareVals_eq]
  have h2 : (stateKeys rows).map (fun s => groupSum rows s / grandTotal rows * 100) =
      (stateKeys rows).map (fun s => groupSum rows s * (100 / grandTotal rows)) := by
    apply List.map_congr_left
    intro s _
    rw [div_mul_eq_mul_div, mul_div_assoc]
  rw [h2, sumMapMul,
    sum_groupSum rows (stateKeys rows) (stateKeys_nodup rows) (mem_stateKeys rows)]
  field_simp

theorem groupSum_nonneg (rows : List (String × ℚ)) (s : String)
    (hnn : ∀ p ∈ rows, 0 ≤ p.2) : 0 ≤ groupSum rows s := by
  apply List.sum_nonneg
  intro y hy
  obtain ⟨q, hq, rfl⟩ := List.mem_map.mp hy
  exact hnn q (List.mem_of_mem_filter hq)

theorem groupSum_le_total (rows : List (String × ℚ)) (s : String)
    (hnn : ∀ p ∈ rows, 0 ≤ p.2) : groupSum rows s ≤ grandTotal rows := by
  apply List.Sublist.sum_le_sum ((List.filter_sublist _).map Prod.snd)
  intro y hy
  obtain ⟨q, hq, rfl⟩ := List.mem_map.mp hy
  exact hnn q hq

theorem shareVals_nonneg (rows : List (String × ℚ))
    (hnn : ∀ p ∈ rows, 0 ≤ p.2) (ht : 0 < grandTotal rows) :
    ∀ x ∈ shareVals rows, 0 ≤ x := by
  intro x hx
  rw [shareVals_eq] at hx
  obtain ⟨s, _, rfl⟩ := List.mem_map.mp hx
  exact mul_nonneg (div_nonneg (groupSum_nonneg rows s hnn) ht.le) (by norm_num)

theorem shareVals_le_100 (rows : List (String × ℚ))
    (hnn : ∀ p ∈ rows, 0 ≤ p.2) (ht : 0 < grandTotal rows) :
    ∀ x ∈ shareVals rows, x ≤ 100 := by
  intro x hx
  rw [shareVals_eq] at hx
  obtain ⟨s, _, rfl⟩ := List.mem_map.mp hx
  have h1 : groupSum rows s / grandTotal rows ≤ 1 :=
    (div_le_one ht).mpr (groupSum_le_total rows s hnn)
  nlinarith

theorem herfindahl_nonneg (rows : List (String × ℚ)) : 0 ≤ herfindahlOf rows := by
  apply List.sum_nonneg
  intro x hx
  obtain ⟨y, _, rfl⟩ := List.mem_map.mp hx
  exact sq_nonneg y

theorem herfindahl_le_10000 (rows : List (String × ℚ))
    (hnn : ∀ p ∈ rows, 0 ≤ p.2) (ht : 0 < grandTotal rows) :
    herfindahlOf rows ≤ 10000 := by
  have h := sum_sq_le_mul_sum (shareVals rows) 100
    (shareVals_nonneg rows hnn ht) (shareVals_le_100 rows hnn ht)
  rw [shareVals_sum rows ht.ne'] at h
  unfold herfindahlOf
  linarith

/-! ### Supporting lemmas: single-state datasets and permutations -/

theorem dedup_all_eq {l : List String} {a : String} (hne : l ≠ [])
    (h : ∀ x ∈ l, x = a) : l.dedup = [a] := by
  induction l with
  | nil => simp at hne
  | cons b t ih =>
    have hb : b = a := h b (List.mem_cons_self b t)
    subst hb
    cases t with
    | nil => simp
    | cons c u =>
      have ht : ∀ x ∈ c :: u, x = b := fun x hx => h x (List.mem_cons_of_mem _ hx)
      have hdt : (c :: u).dedup = [b] := ih (by simp) ht
      have hcb : c = b := ht c (List.mem_cons_self c u)
      have hmem : b ∈ c :: u := by
        rw [hcb]
        exact List.mem_cons_self b u
      rw [List.dedup_cons_of_mem hmem, hdt]

theorem stateKeys_single (rows : List (String × ℚ)) (s : String) (hne : rows ≠ [])
    (hall : ∀ p ∈ rows, p.1 = s) : stateKeys rows = [s] := by
  unfold stateKeys
  have h1 : (rows.map Prod.fst).dedup = [s] := by
    apply dedup_all_eq
    · simp [hne]
    · intro x hx
      obtain ⟨p, hp, rfl⟩ := List.mem_map.mp hx
      exact hall p hp
  rw [h1]
  rfl

theorem groupSum_all (rows : List (String × ℚ)) (s : String)
    (hall : ∀ p ∈ rows, p.1 = s) : groupSum rows s = grandTotal rows := by
  unfold groupSum grandTotal
  rw [List.filter_eq_self.mpr]
  intro p hp
  simp [hall p hp]

theorem herfindahl_single (rows : List (String × ℚ)) (s : String) (hne : rows ≠ [])
    (hall : ∀ p ∈ rows, p.1 = s) (ht : 0 < grandTotal rows) :
    herfindahlOf rows = 10000 := by
  rw [herfindahlOf, shareVals_eq, stateKeys_single rows s hne hall]
  simp only [List.map_cons, List.map_nil, List.sum_cons, List.sum_nil,
    groupSum_all rows s hall]
  rw [div_self ht.ne']
  norm_num

theorem stateKeys_perm {r1 r2 : List (String × ℚ)} (h : r1.Perm r2) :
    stateKeys r1 = stateKeys r2 := by
  apply List.eq_of_perm_of_sorted (r := (fun a b : String => a ≤ b))
  · exact ((List.perm_insertionSort _ _).trans (h.map Prod.fst).dedup).trans
      (List.perm_insertionSort _ _).symm
  · exact List.sorted_insertionSort _ _
  · exact List.sorted_insertionSort _ _

theorem grandTotal_perm {r1 r2 : List (String × ℚ)} (h : r1.Perm r2) :
    grandTotal r1 = grandTotal r2 := (h.map Prod.snd).sum_eq

theorem groupSum_perm {r1 r2 : List (String × ℚ)} (h : r1.Perm r2) (s : String) :
    groupSum r1 s = groupSum r2 s := ((h.filter _).map Prod.snd).sum_eq

theorem stateShares_perm {r1 r2 : List (String × ℚ)} (h : r1.Perm r2) :
    stateShares r1 = stateShares r2 := by
  unfold stateShares
  rw [stateKeys_perm h]
  apply List.map_congr_left
  intro s _
  rw [groupSum_perm h s, grandTotal_perm h]

theorem calc_conc_perm (sc ec : Option String) {r1 r2 : List (String × ℚ)}
    (h : r1.Perm r2) :
    calculate_concentration sc ec r1 = calculate_concentration sc ec r2 := by
  simp only [calculate_concentration, shareVals, herfindahlOf,
    stateShares_perm h, stateKeys_perm h]

theorem calc_conc_fields {sc ec : Option String} {rows : List (String × ℚ)}
    {r : ConcentrationResult} (h : calculate_concentration sc ec rows = some r) :
    r.herfindahl_index = herfindahlOf rows ∧
    r.concentration_level = concentrationLevel (herfindahlOf rows) := by
  simp only [calculate_concentration] at h
  split at h
  · exact absurd h (by simp)
  · split at h
    · exact absurd h (by simp)
    · rw [Option.some.injEq] at h
      rw [← h]
      exact ⟨rfl, rfl⟩

/-! ### C4 -/

/-- C4 counterexample: the dataset A = 200, B = -100 has positive grand
total 100, yet its shares are 200 and -100 and the stored HHI is
200² + (-100)² = 50000, outside [0, 10000] — positivity of the grand total
alone does not bound the index; per-row nonnegativity is required. -/
theorem C4_counterexample :
    grandTotal [("A", (200 : ℚ)), ("B", -100)] = 100 ∧
    (0 : ℚ) < grandTotal [("A", (200 : ℚ)), ("B", -100)] ∧
    (calculate_concentration (some "state") (some "total")
        [("A", (200 : ℚ)), ("B", -100)]).map ConcentrationResult.herfindahl_index =
      some 50000 ∧
    ¬ ((50000 : ℚ) ≤ 10000) := by
  have htot : grandTotal [("A", (200 : ℚ)), ("B", -100)] = 100 := by
    norm_num [grandTotal]
  have hk : stateKeys [("A", (200 : ℚ)), ("B", -100)] = ["A", "B"] := by
    simp +decide [stateKeys, List.insertionSort, List.orderedInsert]
  have hs : stateShares [("A", (200 : ℚ)), ("B", -100)] = [("A", 200), ("B", -100)] := by
    rw [stateShares, hk]
    simp +decide [groupSum, grandTotal]
    norm_num
  refine ⟨htot, by rw [htot]; norm_num, ?_, by norm_num⟩
  rw [calculate_concentration]
  simp only [shareVals, herfindahlOf, hs, hk]
  norm_num [idxmaxPair, argmaxPairAux]

/-- C4 (amended): the Herfindahl-Hirschman index of `calculate_concentration`
is invariant under permuting the dataset rows; for a dataset of nonnegative
totals with positive grand total it lies in [0, 10000]; a single-state
dataset yields exactly 10000; and the stored concentration level is the
fixed classification High (> 2500) / Moderate (> 2000) / Low of the stored
index. -/
theorem C4_herfindahl_properties :
    (∀ (sc ec : Option String) (rows₁ rows₂ : List (String × ℚ)), rows₁.Perm rows₂ →
      (calculate_concentration sc ec rows₁).map ConcentrationResult.herfindahl_index =
        (calculate_concentration sc ec rows₂).map ConcentrationResult.herfindahl_index) ∧
    (∀ (sc ec : String) (rows : List (String × ℚ)) (r : ConcentrationResult),
      (∀ p ∈ rows, 0 ≤ p.2) → 0 < grandTotal rows →
      calculate_concentration (some sc) (some ec) rows = some r →
      0 ≤ r.herfindahl_index ∧ r.herfindahl_index ≤ 10000) ∧
    (∀ (sc ec s : String) (rows : List (String × ℚ)) (r : ConcentrationResult),
      rows ≠ [] → (∀ p ∈ rows, p.1 = s) → 0 < grandTotal rows →
      calculate_concentration (some sc) (some ec) rows = some r →
      r.herfindahl_index = 10000) ∧
    (∀ (sc ec : Option String) (rows : List (String × ℚ)) (r : ConcentrationResult),
      calculate_concentration sc ec rows = some r →
      r.concentration_level = concentrationLevel r.herfindahl_index) ∧
    (∀ h : ℚ,
      (2500 < h → concentrationLevel h = "High") ∧
      (h ≤ 2500 → 2000 < h → concentrationLevel h = "Moderate") ∧
      (h ≤ 2000 → concentrationLevel h = "Low")) := by
  refine ⟨fun sc ec rows₁ rows₂ h => by rw [calc_conc_perm sc ec h],
    fun sc ec rows r hnn ht hc => ?_,
    fun sc ec s rows r hne hall ht hc => ?_,
    fun sc ec rows r hc => ?_,
    fun h => ⟨fun h1 => ?_, fun h1 h2 => ?_, fun h1 => ?_⟩⟩
  · rw [(calc_conc_fields hc).1]
    exact ⟨herfindahl_nonneg rows, herfindahl_le_10000 rows hnn ht⟩
  · rw [(calc_conc_fields hc).1]
    exact herfindahl_single rows s hne hall ht
  · rw [(calc_conc_fields hc).1, (calc_conc_fields hc).2]
  · rw [concentrationLevel, if_pos h1]
  · rw [concentrationLevel, if_neg (by linarith), if_pos h2]
  · rw [concentrationLevel, if_neg (by linarith), if_neg (by linarith)]

/-- Witness for C4 at concrete inputs: the two-row dataset and its swap, and
the single-state dataset `[("A", 1)]` whose HHI is exactly 10000 and is
classified "High". -/
theorem C4_herfindahl_properties_witness :
    (calculate_concentration (some "state") (some "total") [("B", (2 : ℚ)), ("A", 1)]).map
        ConcentrationResult.herfindahl_index =
      (calculate_concentration (some "state") (some "total") [("A", (1 : ℚ)), ("B", 2)]).map
        ConcentrationResult.herfindahl_index ∧
    calculate_concentration (some "state") (some "total") [("A", (1 : ℚ))] =
      some { herfindahl_index := 10000, gini_coefficient := 0, top_state := "A",
             top_state_percentage := 100, top_5_states_share := 100,
             top_10_states_share := 100, num_states := 1,
             concentration_level := "High" } ∧
    (0 : ℚ) ≤ 10000 ∧ (10000 : ℚ) ≤ 10000 ∧
    ("High" : String) = concentrationLevel 10000 ∧
    concentrationLevel 10000 = "High" := by
  have hperm : ([("B", (2 : ℚ)), ("A", 1)]).Perm [("A", (1 : ℚ)), ("B", 2)] :=
    List.Perm.swap ("A", (1 : ℚ)) ("B", 2) []
  have h1 := C4_herfindahl_properties.1 (some "state") (some "total") _ _ hperm
  have hk : stateKeys [("A", (1 : ℚ))] = ["A"] := by
    simp +decide [stateKeys, List.insertionSort, List.orderedInsert]
  have hs : stateShares [("A", (1 : ℚ))] = [("A", 100)] := by
    rw [stateShares, hk]
    simp +decide [groupSum, grandTotal]
  have hc : calculate_concentration (some "state") (some "total") [("A", (1 : ℚ))] =
      some { herfindahl_index := 10000, gini_coefficient := 0, top_state := "A",
             top_state_percentage := 100, top_5_states_share := 100,
             top_10_states_share := 100, num_states := 1,
             concentration_level := "High" } := by
    rw [calculate_concentration]
    simp only [shareVals, herfindahlOf, hs, hk]
    norm_num [idxmaxPair, argmaxPairAux, sortAscQ, sortDescQ, giniOf, rankWeightedSum,
      List.insertionSort, List.orderedInsert, List.enum, List.enumFrom, concentrationLevel]
  have hrange := C4_herfindahl_properties.2.1 "state" "total" [("A", (1 : ℚ))] _
    (by intro p hp; fin_cases hp; norm_num) (by norm_num [grandTotal]) hc
  have hsingle := C4_herfindahl_properties.2.2.1 "state" "total" "A" [("A", (1 : ℚ))] _
    (by simp) (by intro p hp; fin_cases hp; rfl) (by norm_num [grandTotal]) hc
  have hclass := C4_herfindahl_properties.2.2.2.1 (some "state") (some "total")
    [("A", (1 : ℚ))] _ hc
  have hlevel := (C4_herfindahl_properties.2.2.2.2 10000).1 (by norm_num)
  exact ⟨h1, hc, hrange.1, hrange.2, hclass, hlevel⟩

/-! ### Supporting lemmas: the diversity index -/

theorem castSumSnd (l : List (String × ℤ)) :
    (((l.map Prod.snd).sum : ℤ) : ℚ) = (l.map (fun p => ((p.2 : ℤ) : ℚ))).sum := by
  induction l with
  | nil => simp
  | cons a t ih => simp [List.map_cons, List.sum_cons, Int.cast_add, ih]

theorem sumMapDiv {α : Type} (l : List α) (f : α → ℚ) (T : ℚ) :
    (l.map (fun x => f x / T)).sum = (l.map f).sum / T := by
  induction l with
  | nil => simp
  | cons a t ih => simp [List.map_cons, List.sum_cons, ih, add_div]

/-- What a successful `analyze_age_distribution` stores in the fields the
    claims read. -/
theorem analyze_age_fields {l : List (String × ℤ)} {r : AgeDistResult}
    (h : analyze_age_distribution l = some r) :
    r.age_diversity_index =
      (if 0 < (l.map Prod.snd).sum then
        1 - (l.map (fun p => ((p.2 : ℚ) / (((l.map Prod.snd).sum : ℤ) : ℚ)) ^ 2)).sum
       else 0) ∧
    r.age_groups = l.map (fun p =>
      (p.1, if 0 < (l.map Prod.snd).sum then
        (p.2 : ℚ) / (((l.map Prod.snd).sum : ℤ) : ℚ) * 100 else 0)) := by
  simp only [analyze_age_distribution] at h
  split at h
  · exact absurd h (by simp)
  · rw [Option.some.injEq] at h
    rw [← h]
    exact ⟨rfl, rfl⟩

/-! ### C5 -/

/-- C5 counterexample: the dataset with age-bucket totals 2 and -1 resolves
its age columns and has nonzero grand total, yet its Simpson diversity index
is -4, outside [0, 1) — the claim fails without a nonnegativity restriction. -/
theorem C5_counterexample :
    (analyze_age_distribution [("age_a", 2), ("age_b", -1)]).map
        AgeDistResult.age_diversity_index = some (-4) ∧
    ¬ (0 ≤ (-4 : ℚ) ∧ (-4 : ℚ) < 1) := by
  constructor
  · simp only [analyze_age_distribution]
    norm_num [idxmaxPair, argmaxPairAux]
  · norm_num

/-- C5 (amended): for datasets whose age-bucket totals are nonnegative, the
Simpson diversity index lies in [0, 1); a perfectly uniform distribution
over k buckets with a positive common value has index (k-1)/k; and a
zero-total dataset gets index 0 with every percentage share 0 (not NaN). -/
theorem C5_simpson_diversity :
    (∀ (l : List (String × ℤ)) (r : AgeDistResult),
      analyze_age_distribution l = some r →
      ((∀ p ∈ l, 0 ≤ p.2) →
        0 ≤ r.age_diversity_index ∧ r.age_diversity_index < 1) ∧
      ((l.map Prod.snd).sum = 0 →
        r.age_diversity_index = 0 ∧ ∀ q ∈ r.age_groups, q.2 = 0)) ∧
    (∀ (names : List String) (c : ℤ), names ≠ [] → 0 < c →
      ∀ r : AgeDistResult,
        analyze_age_distribution (names.map (fun nm => (nm, c))) = some r →
        r.age_diversity_index =
          ((names.length : ℚ) - 1) / (names.length : ℚ)) := by
  constructor
  · intro l r h
    obtain ⟨hd, hg⟩ := analyze_age_fields h
    constructor
    · intro hnn
      by_cases htot : 0 < (l.map Prod.snd).sum
      · rw [hd, if_pos htot]
        set T : ℚ := (((l.map Prod.snd).sum : ℤ) : ℚ) with hT
        have hTpos : 0 < T := by rw [hT]; exact_mod_cast htot
        have hTsum : T = (l.map (fun p => ((p.2 : ℤ) : ℚ))).sum := castSumSnd l
        -- the share list and its square sum
        have hsq : l.map (fun p => ((p.2 : ℚ) / T) ^ 2) =
            (l.map (fun p => (p.2 : ℚ) / T)).map (fun x => x ^ 2) := by
          rw [List.map_map]
          rfl
        have hnn' : ∀ x ∈ l.map (fun p => (p.2 : ℚ) / T), 0 ≤ x := by
          intro x hx
          obtain ⟨p, hp, rfl⟩ := List.mem_map.mp hx
          have := hnn p hp
          positivity
        have hle1 : ∀ x ∈ l.map (fun p => (p.2 : ℚ) / T), x ≤ 1 := by
          intro x hx
          obtain ⟨p, hp, rfl⟩ := List.mem_map.mp hx
          apply (div_le_one hTpos).mpr
          rw [hTsum]
          exact List.single_le_sum (fun y hy => by
            obtain ⟨q, hq, rfl⟩ := List.mem_map.mp hy
            exact_mod_cast hnn q hq) _
            (List.mem_map_of_mem (fun p => ((p.2 : ℤ) : ℚ)) hp)
        have hsum1 : (l.map (fun p => (p.2 : ℚ) / T)).sum = 1 := by
          rw [sumMapDiv l (fun p => (p.2 : ℚ)) T, ← hTsum, div_self hTpos.ne']
        have hS1 : (l.map (fun p => ((p.2 : ℚ) / T) ^ 2)).sum ≤ 1 := by
          rw [hsq]
          have := sum_sq_le_mul_sum (l.map (fun p => (p.2 : ℚ) / T)) 1 hnn' hle1
          rw [hsum1] at this
          linarith
        have hS0 : 0 < (l.map (fun p => ((p.2 : ℚ) / T) ^ 2)).sum := by
          have hpos : 0 < (l.map (fun p => ((p.2 : ℤ) : ℚ))).sum := by
            rw [← hTsum]
            exact hTpos
          obtain ⟨x, hx, hxpos⟩ := exists_pos_of_sum_pos _ hpos
          obtain ⟨p, hp, rfl⟩ := List.mem_map.mp hx
          have hmem : ((p.2 : ℚ) / T) ^ 2 ∈ l.map (fun p => ((p.2 : ℚ) / T) ^ 2) :=
            List.mem_map_of_mem (fun p => ((p.2 : ℚ) / T) ^ 2) hp
          have hsqpos : 0 < ((p.2 : ℚ) / T) ^ 2 := by positivity
          have hle := List.single_le_sum (l := l.map (fun p => ((p.2 : ℚ) / T) ^ 2))
            (fun y hy => by
              obtain ⟨q, _, rfl⟩ := List.mem_map.mp hy
              positivity) _ hmem
          linarith
        constructor
        · linarith
        · linarith
      · rw [hd, if_neg htot]
        norm_num
    · intro hz
      have hnot : ¬ 0 < (l.map Prod.snd).sum := by rw [hz]; simp
      refine ⟨by rw [hd, if_neg hnot], ?_⟩
      intro q hq
      rw [hg] at hq
      obtain ⟨p, _, rfl⟩ := List.mem_map.mp hq
      simp [if_neg hnot]
  · intro names c hne hc r h
    obtain ⟨hd, _⟩ := analyze_age_fields h
    have hksnd : (names.map (fun nm => (nm, c))).map Prod.snd =
        List.replicate names.length c := by
      rw [List.map_map]
      exact List.map_const' _ _
    have htotal : ((names.map (fun nm => (nm, c))).map Prod.snd).sum =
        (names.length : ℤ) * c := by
      rw [hksnd, List.sum_replicate, nsmul_eq_mul]
    have hk : 0 < names.length := List.length_pos.mpr hne
    have htot : 0 < ((names.map (fun nm => (nm, c))).map Prod.snd).sum := by
      rw [htotal]
      positivity
    rw [hd, if_pos htot]
    set D : ℚ := ((((names.map (fun nm => (nm, c))).map Prod.snd).sum : ℤ) : ℚ) with hD
    have h1 : (names.map (fun nm => (nm, c))).map (fun p => ((p.2 : ℚ) / D) ^ 2) =
        names.map (fun _ => ((c : ℚ) / D) ^ 2) := by
      rw [List.map_map]
      rfl
    rw [h1, List.map_const', List.sum_replicate, nsmul_eq_mul]
    have hDval : D = (names.length : ℚ) * (c : ℚ) := by
      rw [hD, htotal]
      push_cast
      ring
    have hkq : ((names.length : ℚ)) ≠ 0 := by positivity
    have hcq : ((c : ℚ)) ≠ 0 := by
      have : (0 : ℚ) < (c : ℚ) := by exact_mod_cast hc
      linarith
    rw [hDval]
    field_simp
    ring

/-- Witness for C5 (amended) at concrete inputs: the uniform two-bucket
dataset (1, 1) with diversity 1/2, and the zero-total dataset [("age_a", 0)]
with diversity 0 and all shares 0. -/
theorem C5_simpson_diversity_witness :
    analyze_age_distribution [("age_a", (1 : ℤ)), ("age_b", 1)] =
      some { age_diversity_index := 1 / 2, dominant_age := "age_a",
             dominant_age_percentage := 50,
             age_groups := [("age_a", 50), ("age_b", 50)],
             age_totals := [("age_a", 1), ("age_b", 1)] } ∧
    (0 ≤ (1 / 2 : ℚ) ∧ (1 / 2 : ℚ) < 1) ∧
    (1 / 2 : ℚ) = (((["age_a", "age_b"] : List String).length : ℚ) - 1) /
      ((["age_a", "age_b"] : List String).length : ℚ) ∧
    analyze_age_distribution [("age_a", (0 : ℤ))] =
      some { age_diversity_index := 0, dominant_age := "age_a",
             dominant_age_percentage := 0,
             age_groups := [("age_a", 0)],
             age_totals := [("age_a", 0)] } ∧
    ((0 : ℚ) = 0 ∧ ∀ q ∈ [("age_a", (0 : ℚ))], q.2 = 0) := by
  have h1 : analyze_age_distribution [("age_a", (1 : ℤ)), ("age_b", 1)] =
      some { age_diversity_index := 1 / 2, dominant_age := "age_a",
             dominant_age_percentage := 50,
             age_groups := [("age_a", 50), ("age_b", 50)],
             age_totals := [("age_a", 1), ("age_b", 1)] } := by
    simp only [analyze_age_distribution]
    norm_num [idxmaxPair, argmaxPairAux]
  have h0 : analyze_age_distribution [("age_a", (0 : ℤ))] =
      some { age_diversity_index := 0, dominant_age := "age_a",
             dominant_age_percentage := 0,
             age_groups := [("age_a", 0)],
             age_totals := [("age_a", 0)] } := by
    simp only [analyze_age_distribution]
    norm_num [idxmaxPair, argmaxPairAux]
  have hb := (C5_simpson_diversity.1 _ _ h1).1 (by
    intro p hp
    fin_cases hp <;> norm_num)
  have hu := C5_simpson_diversity.2 ["age_a", "age_b"] 1 (by simp) (by norm_num) _ h1
  have hz := (C5_simpson_diversity.1 _ _ h0).2 (by norm_num)
  exact ⟨h1, hb, hu, h0, hz⟩

/-! ## C1 -/

/-- C1: on the enrollment dataset with states A, B, C and totals 60, 30, 10,
`calculate_concentration` produces percentage shares 60, 30, 10, an HHI of
exactly 4600, concentration level "High", and the geographic insight built
from that metric dict names A as the top state at "60.0%" in its message. -/
theorem C1_end_to_end_example :
    stateShares [("A", 60), ("B", 30), ("C", 10)] = [("A", 60), ("B", 30), ("C", 10)] ∧
    calculate_concentration (some "state") (some "total") [("A", 60), ("B", 30), ("C", 10)] =
      some { herfindahl_index := 4600
             gini_coefficient := 1 / 3
             top_state := "A"
             top_state_percentage := 60
             top_5_states_share := 100
             top_10_states_share := 100
             num_states := 3
             concentration_level := "High" } ∧
    (generate_geographic_insight
      { geographic_metrics := geographicResults
          (calculate_concentration (some "state") (some "total")
            [("A", 60), ("B", 30), ("C", 10)]) }).message =
      "A dominates with 60.0% of all enrollments. The enrollment is heavily concentrated in one region. This means most of the users are from a specific area." ∧
    (generate_geographic_insight
      { geographic_metrics := geographicResults
          (calculate_concentration (some "state") (some "total")
            [("A", 60), ("B", 30), ("C", 10)]) }).title =
      "HIGH CONCENTRATION - Unbalanced Distribution" := by
  have hk : stateKeys [("A", 60), ("B", 30), ("C", 10)] = ["A", "B", "C"] := by
    simp +decide [stateKeys, List.insertionSort, List.orderedInsert]
  have hs : stateShares [("A", 60), ("B", 30), ("C", 10)] = [("A", 60), ("B", 30), ("C", 10)] := by
    rw [stateShares, hk]
    simp +decide [groupSum, grandTotal]
    norm_num
  have hfmt : fmt1 60 = "60.0" := by
    simp only [fmt1]
    norm_num
    rfl
  have hc : calculate_concentration (some "state") (some "total")
      [("A", 60), ("B", 30), ("C", 10)] =
      some { herfindahl_index := 4600
             gini_coefficient := 1 / 3
             top_state := "A"
             top_state_percentage := 60
             top_5_states_share := 100
             top_10_states_share := 100
             num_states := 3
             concentration_level := "High" } := by
    rw [calculate_concentration]
    simp only [shareVals, herfindahlOf, hs, hk]
    norm_num [idxmaxPair, argmaxPairAux, sortAscQ, sortDescQ, giniOf, rankWeightedSum,
      List.insertionSort, List.orderedInsert, List.enum, List.enumFrom, concentrationLevel]
  refine ⟨hs, hc, ?_, ?_⟩ <;>
    simp +decide [hc, generate_geographic_insight, geographicResults,
      ConcentrationResult.metrics, hfmt, show (2500:ℚ) < 4600 by norm_num]


/-! ## C2, C3 -/

/-- C2: trend classification is a pure function of the trailing-10-period
mean growth with fixed thresholds: strictly above 5 gives "upward", strictly
below -5 gives "downward", anything in between — including exactly 5 and
exactly -5 — gives "stable"; 6 maps to "upward", -6 to "downward", 2 to
"stable"; and the trend stored by `calculate_growth_rate` is exactly this
classification of the trailing mean. -/
theorem C2_trend_classification :
    (∀ m : ℚ,
      (m > 5 → classifyTrend m = "upward") ∧
      (m < -5 → classifyTrend m = "downward") ∧
      (-5 ≤ m → m ≤ 5 → classifyTrend m = "stable")) ∧
    classifyTrend 6 = "upward" ∧ classifyTrend (-6) = "downward" ∧
    classifyTrend 2 = "stable" ∧ classifyTrend 5 = "stable" ∧
    classifyTrend (-5) = "stable" ∧
    (∀ (dc ec : Option String) (rows : List (ℤ × ℚ)) (s : GrowthStats),
      calculate_growth_rate dc ec rows = .full s →
      s.trend_direction = classifyTrend (trailingMeanGrowth rows)) := by
  refine ⟨fun m => ⟨fun h => ?_, fun h => ?_, fun h1 h2 => ?_⟩,
    by norm_num [classifyTrend], by norm_num [classifyTrend], by norm_num [classifyTrend],
    by norm_num [classifyTrend], by norm_num [classifyTrend],
    fun dc ec rows s h => ?_⟩
  · rw [classifyTrend, if_pos h]
  · rw [classifyTrend, if_neg (by linarith), if_pos h]
  · rw [classifyTrend, if_neg (by linarith), if_neg (by linarith)]
  · simp only [calculate_growth_rate] at h
    split at h
    · exact absurd h (by simp)
    · split at h
      · exact absurd h (by simp)
      · simp only [GrowthResult.full.injEq] at h
        rw [← h]

/-- Witness for C2 at concrete inputs: thresholds at 6, -6, 2, and the
two-day dataset (1, 100), (2, 106) whose trailing mean growth is 6. -/
theorem C2_trend_classification_witness :
    classifyTrend (6 : ℚ) = "upward" ∧ classifyTrend (-6 : ℚ) = "downward" ∧
    classifyTrend (2 : ℚ) = "stable" ∧
    calculate_growth_rate (some "date") (some "total") [((1 : ℤ), (100 : ℚ)), (2, 106)] =
      .full { avg_growth_rate := 6, peak_growth_rate := 6, lowest_growth_rate := 6,
              trend_direction := "upward", peak_day := 2, peak_count := 106,
              total_records := 206 } ∧
    "upward" = classifyTrend (trailingMeanGrowth [((1 : ℤ), (100 : ℚ)), (2, 106)]) := by
  have h6 := (C2_trend_classification.1 6).1 (by norm_num)
  have hm6 := (C2_trend_classification.1 (-6)).2.1 (by norm_num)
  have h2 := (C2_trend_classification.1 2).2.2 (by norm_num) (by norm_num)
  have hd : dateKeys [((1 : ℤ), (100 : ℚ)), (2, 106)] = [1, 2] := by
    simp +decide [dateKeys, List.insertionSort, List.orderedInsert]
  have ht : dailyTotals [((1 : ℤ), (100 : ℚ)), (2, 106)] = [100, 106] := by
    rw [dailyTotals, hd]
    simp +decide [dateGroupSum]
  have hg : growthSeries [(100 : ℚ), 106] = [none, some 6] := by
    simp only [growthSeries, List.zip, List.zipWith, List.map]
    norm_num
  have htrail : trailingMeanGrowth [((1 : ℤ), (100 : ℚ)), (2, 106)] = 6 := by
    simp only [trailingMeanGrowth, ht, hg]
    norm_num [nanMean, List.filterMap_cons, List.filterMap_nil, id_eq]
  have hfull : calculate_growth_rate (some "date") (some "total")
      [((1 : ℤ), (100 : ℚ)), (2, 106)] =
      .full { avg_growth_rate := 6, peak_growth_rate := 6, lowest_growth_rate := 6,
              trend_direction := "upward", peak_day := 2, peak_count := 106,
              total_records := 206 } := by
    simp only [calculate_growth_rate, ht, hg, htrail, hd]
    norm_num [nanMean, argmaxIdx, argmaxIdxAux, intTrunc, classifyTrend, List.max?, List.min?,
      List.filterMap_cons, List.filterMap_nil, id_eq]
  have happ := C2_trend_classification.2.2.2.2.2.2 (some "date") (some "total")
    [((1 : ℤ), (100 : ℚ)), (2, 106)] _ hfull
  exact ⟨h6, hm6, h2, hfull, happ⟩

/-- C3 counterexample: with both columns resolved and a single date period,
`calculate_growth_rate` returns the 3-key default dict, not the empty dict
the claim requires. -/
theorem C3_counterexample :
    calculate_growth_rate (find_date_column ["date", "total"])
      (find_enrol_column_temporal ["date", "total"]) [((1 : ℤ), (5 : ℚ))] =
      .shortSeries 0 "stable" none ∧
    GrowthResult.shortSeries 0 "stable" none ≠ GrowthResult.empty := by
  constructor
  · have hdc : find_date_column ["date", "total"] = some "date" := by decide
    have hec : find_enrol_column_temporal ["date", "total"] = some "total" := by decide
    rw [hdc, hec, calculate_growth_rate]
    have hl : (dailyTotals [((1 : ℤ), (5 : ℚ))]).length = 1 := by
      simp +decide [dailyTotals, dateKeys, List.insertionSort, List.orderedInsert]
    simp [hl]
  · simp

/-- C3 (amended): `calculate_growth_rate` returns the empty dict exactly when
the date or enrollment column is unresolved; with resolved columns but fewer
than 2 aggregated periods it returns the fixed non-empty default dict
`{'avg_growth_rate': 0, 'trend_direction': 'stable', 'peak_day': None}`; and
on every input it returns one of the three documented shapes rather than
raising. -/
theorem C3_growth_rate_degradation :
    ∀ (dc ec : Option String) (rows : List (ℤ × ℚ)),
      (dc = none ∨ ec = none → calculate_growth_rate dc ec rows = .empty) ∧
      (∀ d e, dc = some d → ec = some e → (dailyTotals rows).length < 2 →
        calculate_growth_rate dc ec rows = .shortSeries 0 "stable" none) ∧
      (calculate_growth_rate dc ec rows = .empty ∨
       calculate_growth_rate dc ec rows = .shortSeries 0 "stable" none ∨
       ∃ s, calculate_growth_rate dc ec rows = .full s) := by
  intro dc ec rows
  refine ⟨fun h => ?_, fun d e hd he hlen => ?_, ?_⟩
  · rw [calculate_growth_rate, if_pos]
    rcases h with h | h <;> simp [h]
  · subst hd; subst he
    simp only [calculate_growth_rate]
    simp [hlen]
  · simp only [calculate_growth_rate]
    split
    · exact Or.inl rfl
    · split
      · exact Or.inr (Or.inl rfl)
      · exact Or.inr (Or.inr ⟨_, rfl⟩)

/-- Witness for C3 (amended) at concrete inputs: unresolved columns give the
empty dict; resolved columns with one period give the default dict. -/
theorem C3_growth_rate_degradation_witness :
    calculate_growth_rate none (some "total") [((1 : ℤ), (5 : ℚ))] = .empty ∧
    calculate_growth_rate (some "date") (some "total") [((1 : ℤ), (5 : ℚ))] =
      .shortSeries 0 "stable" none := by
  constructor
  · exact (C3_growth_rate_degradation none (some "total") [((1 : ℤ), (5 : ℚ))]).1 (Or.inl rfl)
  · refine (C3_growth_rate_degradation (some "date") (some "total")
      [((1 : ℤ), (5 : ℚ))]).2.1 "date" "total" rfl rfl ?_
    have hl : (dailyTotals [((1 : ℤ), (5 : ℚ))]).length = 1 := by
      simp +decide [dailyTotals, dateKeys, List.insertionSort, List.orderedInsert]
    omega


/-! ### Supporting lemmas: completeness counting -/

theorem row_count_split (row : List Bool) :
    row.countP (fun b => b) + row.countP (fun b => !b) = row.length := by
  induction row with
  | nil => simp
  | cons b t ih => cases b <;> simp [List.countP_cons] <;> omega

/-- Populated plus missing cells account for every cell of a rectangular
    dataframe. -/
theorem sum_counts (ncols : ℕ) (rows : List (List Bool))
    (hrect : ∀ row ∈ rows, row.length = ncols) :
    nonNullCells rows + (rows.map (fun row => row.countP (fun b => !b))).sum =
      rows.length * ncols := by
  induction rows with
  | nil => simp [nonNullCells]
  | cons r t ih =>
    have h1 := row_count_split r
    have h2 := hrect r (List.mem_cons_self r t)
    have h3 := ih (fun row hr => hrect row (List.mem_cons_of_mem _ hr))
    simp only [nonNullCells, List.map_cons, List.sum_cons, List.length_cons] at h3 ⊢
    rw [Nat.succ_mul]
    linarith

/-! ### C6 -/

/-- C6: overall completeness is the populated-cell count over the total cell
count times 100: an all-populated nonempty dataframe scores exactly 100, and
an R×C dataframe with exactly one missing cell scores (R·C - 1)/(R·C)·100. -/
theorem C6_completeness :
    ∀ (ncols : ℕ) (rows : List (List Bool)),
      rows ≠ [] → 0 < ncols → (∀ row ∈ rows, row.length = ncols) →
      ((calculate_completeness ncols rows).overall_completeness =
          (nonNullCells rows : ℚ) / ((rows.length * ncols : ℕ) : ℚ) * 100) ∧
      ((∀ row ∈ rows, ∀ b ∈ row, b = true) →
        (calculate_completeness ncols rows).overall_completeness = 100) ∧
      ((rows.map (fun row => row.countP (fun b => !b))).sum = 1 →
        (calculate_completeness ncols rows).overall_completeness =
          (((rows.length * ncols : ℕ) : ℚ) - 1) / ((rows.length * ncols : ℕ) : ℚ) * 100) := by
  intro ncols rows hne hc hrect
  have hpos : 0 < rows.length * ncols := Nat.mul_pos (List.length_pos.mpr hne) hc
  have hover : (calculate_completeness ncols rows).overall_completeness =
      (nonNullCells rows : ℚ) / ((rows.length * ncols : ℕ) : ℚ) * 100 := by
    simp only [calculate_completeness]
    rw [if_pos hpos]
  refine ⟨hover, fun hall => ?_, fun hone => ?_⟩
  · have hzero : (rows.map (fun row => row.countP (fun b => !b))).sum = 0 := by
      apply List.sum_eq_zero
      intro x hx
      obtain ⟨row, hr, rfl⟩ := List.mem_map.mp hx
      apply List.countP_eq_zero.mpr
      intro b hb
      simp [hall row hr b hb]
    have hnn : nonNullCells rows = rows.length * ncols := by
      have := sum_counts ncols rows hrect
      omega
    rw [hover, hnn]
    have h1 : ((rows.length : ℕ) : ℚ) ≠ 0 := by
      exact_mod_cast (List.length_pos.mpr hne).ne'
    have h2 : ((ncols : ℕ) : ℚ) ≠ 0 := by exact_mod_cast hc.ne'
    push_cast
    field_simp
  · have hnn : nonNullCells rows = rows.length * ncols - 1 := by
      have := sum_counts ncols rows hrect
      omega
    rw [hover, hnn]
    rw [Nat.cast_sub hpos]
    norm_num

/-- Witness for C6 at concrete inputs: an all-populated 1×2 dataframe scores
100, and a 1×2 dataframe with one missing cell scores (2-1)/2·100 = 50. -/
theorem C6_completeness_witness :
    (calculate_completeness 2 [[true, true]]).overall_completeness = 100 ∧
    (calculate_completeness 2 [[true, false]]).overall_completeness =
      ((([[true, false]] : List (List Bool)).length * 2 : ℕ) : ℚ) ⁻¹ *
        (((([[true, false]] : List (List Bool)).length * 2 : ℕ) : ℚ) - 1) * 100 ∧
    (calculate_completeness 2 [[true, false]]).overall_completeness = 50 := by
  have hful := (C6_completeness 2 [[true, true]] (by simp) (by norm_num)
    (by intro row hr; fin_cases hr; rfl)).2.1
    (by intro row hr; fin_cases hr; intro b hb; fin_cases hb <;> rfl)
  have hone := (C6_completeness 2 [[true, false]] (by simp) (by norm_num)
    (by intro row hr; fin_cases hr; rfl)).2.2 (by decide)
  refine ⟨hful, ?_, ?_⟩
  · rw [hone]
    ring
  · rw [hone]
    norm_num

/-! ### Supporting lemmas: recommendation filtering -/

theorem filter_sub {α : Type} (l : List α) (p q : α → Bool)
    (h : ∀ i, p i = true → q i = true) :
    (l.filter q).filter p = l.filter p := by
  induction l with
  | nil => simp
  | cons i t ih =>
    rcases hq : q i <;> rcases hp : p i <;>
      simp [List.filter_cons, hq, hp, ih]
    exact absurd (h i hp) (by simp [hq])

/-! ### C7 -/

/-- C7: the recommendation list is the critical/warning actions in insight
order followed by the positive actions, truncated to 10; info-severity
insights contribute nothing (removing them leaves the list unchanged); the
list never exceeds 10 entries; and when no insight is critical, warning or
positive it is exactly the four fixed defaults. -/
theorem C7_recommendations :
    ∀ insights : List Insight,
      (generate_recommendations insights).length ≤ 10 ∧
      generate_recommendations (insights.filter (fun i => !(i.severity == "info"))) =
        generate_recommendations insights ∧
      ((∃ i ∈ insights, i.severity = "critical" ∨ i.severity = "warning" ∨
          i.severity = "positive") →
        generate_recommendations insights =
          (((insights.filter (fun i => i.severity == "critical" ||
              i.severity == "warning")).map (fun i => i.action)) ++
            ((insights.filter (fun i => i.severity == "positive")).map
              (fun i => i.action))).take 10) ∧
      ((∀ i ∈ insights, i.severity ≠ "critical" ∧ i.severity ≠ "warning" ∧
          i.severity ≠ "positive") →
        generate_recommendations insights = default_recommendations) := by
  intro insights
  refine ⟨?_, ?_, fun hex => ?_, fun hnone => ?_⟩
  · simp only [generate_recommendations]
    split <;> simp [List.length_take]
  · simp only [generate_recommendations]
    rw [filter_sub insights _ (fun i => !(i.severity == "info")) (by
      intro i hp
      simp only [Bool.or_eq_true, beq_iff_eq] at hp
      rcases hp with hp | hp <;> simp [hp])]
    rw [filter_sub insights _ (fun i => !(i.severity == "info")) (by
      intro i hp
      simp only [beq_iff_eq] at hp
      simp [hp])]
  · simp only [generate_recommendations]
    rw [if_neg]
    simp only [List.isEmpty_eq_true, List.append_eq_nil, not_and]
    obtain ⟨i, hi, hsev⟩ := hex
    rcases hsev with h | h | h
    · intro hA
      exact absurd hA (by
        apply List.ne_nil_of_mem
        exact List.mem_map_of_mem _ (List.mem_filter.mpr ⟨hi, by simp [h]⟩))
    · intro hA
      exact absurd hA (by
        apply List.ne_nil_of_mem
        exact List.mem_map_of_mem _ (List.mem_filter.mpr ⟨hi, by simp [h]⟩))
    · intro _
      apply List.ne_nil_of_mem
      exact List.mem_map_of_mem _ (List.mem_filter.mpr ⟨hi, by simp [h]⟩)
  · simp only [generate_recommendations]
    have hA : insights.filter (fun i => i.severity == "critical" ||
        i.severity == "warning") = [] := by
      apply List.filter_eq_nil_iff.mpr
      intro i hi
      have := hnone i hi
      simp [this.1, this.2.1]
    have hB : insights.filter (fun i => i.severity == "positive") = [] := by
      apply List.filter_eq_nil_iff.mpr
      intro i hi
      have := hnone i hi
      simp [this.2.2]
    rw [hA, hB]
    rfl

/-- Witness for C7 at concrete inputs: the spec's four-insight example with
severities critical, positive, warning, info yields the critical and warning
actions (in insight order) before the positive action and drops the info
action; an info-only list yields the four defaults. -/
theorem C7_recommendations_witness :
    generate_recommendations
      [⟨"t1", "m1", "d1", "act-critical", "critical", "x"⟩,
       ⟨"t2", "m2", "d2", "act-positive", "positive", "x"⟩,
       ⟨"t3", "m3", "d3", "act-warning", "warning", "x"⟩,
       ⟨"t4", "m4", "d4", "act-info", "info", "x"⟩] =
      ["act-critical", "act-warning", "act-positive"] ∧
    generate_recommendations [⟨"t4", "m4", "d4", "act-info", "info", "x"⟩] =
      default_recommendations ∧
    (generate_recommendations
      [⟨"t1", "m1", "d1", "act-critical", "critical", "x"⟩,
       ⟨"t2", "m2", "d2", "act-positive", "positive", "x"⟩,
       ⟨"t3", "m3", "d3", "act-warning", "warning", "x"⟩,
       ⟨"t4", "m4", "d4", "act-info", "info", "x"⟩]).length ≤ 10 := by
  refine ⟨?_, ?_, (C7_recommendations _).1⟩
  · have h := (C7_recommendations
      [⟨"t1", "m1", "d1", "act-critical", "critical", "x"⟩,
       ⟨"t2", "m2", "d2", "act-positive", "positive", "x"⟩,
       ⟨"t3", "m3", "d3", "act-warning", "warning", "x"⟩,
       ⟨"t4", "m4", "d4", "act-info", "info", "x"⟩]).2.2.1
      ⟨⟨"t1", "m1", "d1", "act-critical", "critical", "x"⟩,
        List.mem_cons_self _ _, Or.inl rfl⟩
    rw [h]
    decide
  · exact (C7_recommendations [⟨"t4", "m4", "d4", "act-info", "info", "x"⟩]).2.2.2
      (by intro i hi; fin_cases hi; refine ⟨?_, ?_, ?_⟩ <;> decide)

/-! ### C8 -/

/-- C8: the summary banner is chosen by the severity roll-up in fixed order:
any critical insight gives the red CRITICAL banner; otherwise any warning
insight gives the amber CAUTION banner; otherwise the green ON TRACK banner. -/
theorem C8_summary_banner :
    ∀ insights : List Insight,
      (0 < (get_insights_by_severity insights "critical").length →
        get_summary_text insights =
          mkSummaryBanner "#ef4444" " CRITICAL - Immediate Action Required"
            (get_insights_by_severity insights "positive").length
            (get_insights_by_severity insights "warning").length
            (get_insights_by_severity insights "critical").length) ∧
      ((get_insights_by_severity insights "critical").length = 0 →
        0 < (get_insights_by_severity insights "warning").length →
        get_summary_text insights =
          mkSummaryBanner "#f59e0b" " CAUTION - Review Needed"
            (get_insights_by_severity insights "positive").length
            (get_insights_by_severity insights "warning").length
            (get_insights_by_severity insights "critical").length) ∧
      ((get_insights_by_severity insights "critical").length = 0 →
        (get_insights_by_severity insights "warning").length = 0 →
        get_summary_text insights =
          mkSummaryBanner "#10b981" " ON TRACK - Healthy Performance"
            (get_insights_by_severity insights "positive").length
            (get_insights_by_severity insights "warning").length
            (get_insights_by_severity insights "critical").length) := by
  intro insights
  refine ⟨fun h1 => ?_, fun h1 h2 => ?_, fun h1 h2 => ?_⟩
  · simp only [get_summary_text]
    rw [if_pos h1]
  · simp only [get_summary_text]
    rw [if_neg (by omega), if_pos h2]
  · simp only [get_summary_text]
    rw [if_neg (by omega), if_neg (by omega)]

/-- Witness for C8 at concrete inputs: singleton insight lists of each
severity select the red, amber and green banner respectively. -/
theorem C8_summary_banner_witness :
    get_summary_text [⟨"t", "m", "d", "a", "critical", "x"⟩] =
      mkSummaryBanner "#ef4444" " CRITICAL - Immediate Action Required"
        (get_insights_by_severity [⟨"t", "m", "d", "a", "critical", "x"⟩] "positive").length
        (get_insights_by_severity [⟨"t", "m", "d", "a", "critical", "x"⟩] "warning").length
        (get_insights_by_severity [⟨"t", "m", "d", "a", "critical", "x"⟩] "critical").length ∧
    get_summary_text [⟨"t", "m", "d", "a", "warning", "x"⟩] =
      mkSummaryBanner "#f59e0b" " CAUTION - Review Needed"
        (get_insights_by_severity [⟨"t", "m", "d", "a", "warning", "x"⟩] "positive").length
        (get_insights_by_severity [⟨"t", "m", "d", "a", "warning", "x"⟩] "warning").length
        (get_insights_by_severity [⟨"t", "m", "d", "a", "warning", "x"⟩] "critical").length ∧
    get_summary_text [⟨"t", "m", "d", "a", "positive", "x"⟩] =
      mkSummaryBanner "#10b981" " ON TRACK - Healthy Performance"
        (get_insights_by_severity [⟨"t", "m", "d", "a", "positive", "x"⟩] "positive").length
        (get_insights_by_severity [⟨"t", "m", "d", "a", "positive", "x"⟩] "warning").length
        (get_insights_by_severity [⟨"t", "m", "d", "a", "positive", "x"⟩] "critical").length := by
  refine ⟨(C8_summary_banner _).1 (by decide),
    (C8_summary_banner _).2.1 (by decide) (by decide),
    (C8_summary_banner _).2.2 (by decide) (by decide)⟩

/-! ### Supporting lemmas: severity vocabulary of each generator -/

theorem sevOK_quality (r : AnalysisResults) : sevOK (generate_quality_insight r) = true := by
  dsimp only [generate_quality_insight]
  repeat' split
  all_goals rfl

theorem sevOK_temporal (r : AnalysisResults) : sevOK (generate_temporal_insight r) = true := by
  dsimp only [generate_temporal_insight]
  repeat' split
  all_goals rfl

theorem sevOK_geographic (r : AnalysisResults) :
    sevOK (generate_geographic_insight r) = true := by
  dsimp only [generate_geographic_insight]
  repeat' split
  all_goals rfl

theorem sevOK_demographic (r : AnalysisResults) :
    sevOK (generate_demographic_insight r) = true := by
  dsimp only [generate_demographic_insight]
  repeat' split
  all_goals rfl

theorem sevOK_peak (r : AnalysisResults) :
    sevOK (generate_peak_activity_insight r) = true := rfl

theorem sevOK_weekly (r : AnalysisResults) :
    sevOK (generate_weekly_consistency_insight r) = true := by
  dsimp only [generate_weekly_consistency_insight, sevOK]
  repeat' split
  all_goals rfl

theorem sevOK_coverage (r : AnalysisResults) :
    sevOK (generate_state_coverage_insight r) = true := by
  dsimp only [generate_state_coverage_insight, sevOK]
  repeat' split
  all_goals rfl

theorem sevOK_gender (r : AnalysisResults) (i : Insight)
    (h : generate_gender_insight r = some i) : sevOK i = true := by
  simp only [generate_gender_insight] at h
  split at h
  · exact absurd h (by simp)
  · rw [Option.some.injEq] at h
    rw [← h]
    dsimp only [sevOK]
    repeat' split
    all_goals rfl

theorem sevOK_duplicates (r : AnalysisResults) :
    sevOK (generate_duplicates_insight r) = true := by
  dsimp only [generate_duplicates_insight, sevOK]
  repeat' split
  all_goals rfl

theorem sevOK_biometric (r : AnalysisResults) (i : Insight)
    (h : generate_biometric_insight r = some i) : sevOK i = true := by
  simp only [generate_biometric_insight] at h
  split at h
  · exact absurd h (by simp)
  · rw [Option.some.injEq] at h
    rw [← h]
    dsimp only [sevOK]
    repeat' split
    all_goals rfl

theorem sevOK_update (r : AnalysisResults) : sevOK (generate_update_insight r) = true := by
  dsimp only [generate_update_insight, sevOK]
  repeat' split
  all_goals rfl

theorem sevOK_volatility (r : AnalysisResults) :
    sevOK (generate_volatility_insight r) = true := by
  dsimp only [generate_volatility_insight, sevOK]
  repeat' split
  all_goals rfl

theorem sevOK_capacity (r : AnalysisResults) :
    sevOK (generate_capacity_insight r) = true := by
  dsimp only [generate_capacity_insight, sevOK]
  repeat' split
  all_goals rfl

/-- Every insight retained by `generate_all_insights` carries one of the four
    documented severities. -/
theorem sevOK_all (r : AnalysisResults) :
    ∀ i ∈ generate_all_insights r, sevOK i = true := by
  intro i hi
  rw [generate_all_insights, List.mem_filterMap] at hi
  obtain ⟨o, ho, hid⟩ := hi
  simp only [id_eq] at hid
  subst hid
  simp only [List.mem_cons, List.not_mem_nil, or_false] at ho
  rcases ho with h | h | h | h | h | h | h | h | h | h | h | h | h
  · rw [Option.some.injEq] at h
    rw [h]
    exact sevOK_quality r
  · rw [Option.some.injEq] at h
    rw [h]
    exact sevOK_temporal r
  · rw [Option.some.injEq] at h
    rw [h]
    exact sevOK_geographic r
  · rw [Option.some.injEq] at h
    rw [h]
    exact sevOK_demographic r
  · rw [Option.some.injEq] at h
    rw [h]
    exact sevOK_peak r
  · rw [Option.some.injEq] at h
    rw [h]
    exact sevOK_weekly r
  · rw [Option.some.injEq] at h
    rw [h]
    exact sevOK_coverage r
  · exact sevOK_gender r i h.symm
  · rw [Option.some.injEq] at h
    rw [h]
    exact sevOK_duplicates r
  · exact sevOK_biometric r i h.symm
  · rw [Option.some.injEq] at h
    rw [h]
    exact sevOK_update r
  · rw [Option.some.injEq] at h
    rw [h]
    exact sevOK_volatility r
  · rw [Option.some.injEq] at h
    rw [h]
    exact sevOK_capacity r

/-- On insight lists drawn from the four-severity vocabulary, the four
    severity counts partition the list. -/
theorem sev_counts (l : List Insight) (h : ∀ i ∈ l, sevOK i = true) :
    (l.filter (fun i => i.severity == "critical")).length +
      (l.filter (fun i => i.severity == "warning")).length +
      (l.filter (fun i => i.severity == "positive")).length +
      (l.filter (fun i => i.severity == "info")).length = l.length := by
  induction l with
  | nil => simp
  | cons i t ih =>
    have hi := h i (List.mem_cons_self i t)
    have ht := ih (fun j hj => h j (List.mem_cons_of_mem _ hj))
    simp only [sevOK, Bool.or_eq_true, beq_iff_eq] at hi
    rcases hi with ((hc | hc) | hc) | hc <;>
      simp +decide [List.filter_cons, hc] <;> omega

/-! ### C9 -/

/-- C9: the generated insight list is never empty: only the gender and
biometric generators can return the empty dict, every other generator always
returns a populated record, so every analysis-results mapping — including
the completely empty one — yields at least 11 insights. -/
theorem C9_insights_nonempty :
    ∀ r : AnalysisResults,
      (generate_all_insights r).length =
        11 + (generate_gender_insight r).toList.length +
          (generate_biometric_insight r).toList.length ∧
      11 ≤ (generate_all_insights r).length ∧
      generate_all_insights r ≠ [] := by
  intro r
  rcases hg : generate_gender_insight r with _ | gi <;>
    rcases hb : generate_biometric_insight r with _ | bi <;>
      simp [generate_all_insights, hg, hb, Option.toList]

/-! ### C10 -/

/-- C10: every insight in the generated list carries one of the severities
positive, info, warning, critical, so in the `to_json_safe` export the four
severity counts sum exactly to `total_insights`. -/
theorem C10_severity_partition :
    ∀ r : AnalysisResults,
      (to_json_safe r).insights.countP sevOK = (to_json_safe r).summary.total_insights ∧
      (to_json_safe r).summary.critical + (to_json_safe r).summary.warning +
          (to_json_safe r).summary.positive + (to_json_safe r).summary.info =
        (to_json_safe r).summary.total_insights := by
  intro r
  have hall := sevOK_all r
  constructor
  · dsimp only [to_json_safe]
    exact List.countP_eq_length.mpr (fun i hi => hall i hi)
  · dsimp only [to_json_safe, get_insights_by_severity]
    exact sev_counts (generate_all_insights r) hall

end AadhaarSpec
